import Mathlib

/-!
# Call lifecycle coordinator of kazoo-popup (`src/mainwindow.cpp`)

A shallow embedding of the slots of `MainWindow` that track one notification
dialog and one timeout timer per telephony call, and theorems about them.

Vocabulary used by the specification and the matching members of the source:

* `freeSurfaces`   is `m_informerDialogsHash`,
* `pinnedSurfaces` is `m_attachedDialogsHash`,
* `timers`         is `m_timersHash`.

Pointers (`InformerDialog*`, `QTimer*`) are natural numbers, `0` being `nullptr`.
The objects they point to live in two stores, `dialogHeap` and `timerHeap`,
indexed by pointer.  `new` hands out the next unused address.

Qt delivers every signal of this program on the GUI thread, one slot call at a
time, so a slot is a function from window state to window state.  The geometry
computed in `onChannelCreated` only positions the dialog on screen and is left
out; everything else the slots do to the hashes, dialogs and timers is kept.
-/

namespace KazooPopup

/-! ## `QHash<QString, T*>` -/

/-- A `QHash<QString, T*>`: its entries, in iteration order.  The operations below
never create two entries with the same key.  Qt leaves the iteration order
unspecified; it only shows through `key`, when one pointer is stored under
several keys.  Statements about an arbitrary hash cover every order. -/
structure QHash where
  entries : List (String × Nat)
deriving DecidableEq, Repr

namespace QHash

/-- A default-constructed, empty hash. -/
def empty : QHash := ⟨[]⟩

/-- `QHash::contains(key)`. -/
def contains (h : QHash) (k : String) : Bool :=
  h.entries.any (fun e => e.1 == k)

/-- `QHash::value(key)`: the value stored under `key`, or a default-constructed
value (`nullptr`) when there is none. -/
def value (h : QHash) (k : String) : Nat :=
  match h.entries.find? (fun e => e.1 == k) with
  | some e => e.2
  | none => 0

/-- `QHash::key(value)`: the first key, in iteration order, mapped to `value`, or
a default-constructed key (the empty `QString`) when there is none. -/
def key (h : QHash) (v : Nat) : String :=
  match h.entries.find? (fun e => e.2 == v) with
  | some e => e.1
  | none => ""

/-- `QHash::remove(key)`: drops every entry stored under `key`. -/
def remove (h : QHash) (k : String) : QHash :=
  ⟨h.entries.filter (fun e => e.1 != k)⟩

/-- `QHash::insert(key, value)`: an entry already stored under `key` is replaced.
The new entry is put first in iteration order. -/
def insert (h : QHash) (k : String) (v : Nat) : QHash :=
  ⟨(k, v) :: (h.remove k).entries⟩

/-- `QHash::values()`. -/
def values (h : QHash) : List Nat :=
  h.entries.map Prod.snd

/-- `QHash::clear()`. -/
def clear (_h : QHash) : QHash := ⟨[]⟩

end QHash

/-! ## Collaborators whose sources are outside `mainwindow.cpp` -/

/-- Modelled from the spec: `Caller` (declared in `caller.h`, which is not part of
the sources at hand) is the caller metadata of a "created" event: display
information and a URL that may be opened automatically. -/
structure Caller where
  displayInfo : String
  callerUrl : String
deriving DecidableEq, Repr

/-- Modelled from the spec: the display states of a notification dialog.  The
source names `kStateAnswered` and `kStateAnsweredAnother`; the state a dialog
starts in is called Created by the specification. -/
inductive DialogState where
  | kStateCreated
  | kStateAnswered
  | kStateAnsweredAnother
deriving DecidableEq, Repr

/-- Modelled from the spec: `InformerDialog` (declared in `informerdialog.h`, which
is not part of the sources at hand): a notification surface with a display
state, peer information, a shown flag and a user-controlled attached flag.  The
two counters record how often `close()` and `deleteLater()` were called on it. -/
structure InformerDialog where
  caller : Option Caller
  callee : Option (String × String)
  state : DialogState
  visible : Bool
  attached : Bool
  closeCalls : Nat
  deleteLaterCalls : Nat
deriving DecidableEq, Repr

namespace InformerDialog

/-- Modelled from the spec: a freshly constructed dialog: state Created, not yet
shown, not attached. -/
def new : InformerDialog :=
  { caller := none, callee := none, state := DialogState.kStateCreated,
    visible := false, attached := false, closeCalls := 0, deleteLaterCalls := 0 }

/-- Modelled from the spec: `setCaller` initialises the dialog with the caller
metadata. -/
def setCaller (d : InformerDialog) (c : Caller) : InformerDialog :=
  { d with caller := some c }

/-- Modelled from the spec: `setCallee` sets the peer information. -/
def setCallee (d : InformerDialog) (calleeNumber calleeName : String) : InformerDialog :=
  { d with callee := some (calleeNumber, calleeName) }

/-- Modelled from the spec: `setState` sets the display state. -/
def setState (d : InformerDialog) (st : DialogState) : InformerDialog :=
  { d with state := st }

/-- Modelled from the spec: `show()` makes the surface visible. -/
def «show» (d : InformerDialog) : InformerDialog :=
  { d with visible := true }

/-- Modelled from the spec: `close()` closes the surface: it is no longer shown.
The `finished` signal of a surface reaches `processDialogFinished` as an event
of its own (`Event.dialogFinished`), slots do not run inside one another. -/
def close (d : InformerDialog) : InformerDialog :=
  { d with visible := false, closeCalls := d.closeCalls + 1 }

/-- Modelled from the spec: `deleteLater()` releases the surface. -/
def deleteLater (d : InformerDialog) : InformerDialog :=
  { d with deleteLaterCalls := d.deleteLaterCalls + 1 }

/-- Modelled from the spec: the user toggles the attached flag through the surface
itself, which then emits `dialogAttached` with the new value. -/
def setAttached (d : InformerDialog) (b : Bool) : InformerDialog :=
  { d with attached := b }

end InformerDialog

/-- A `QTimer` of the Qt library, as far as the slots use it: its interval in
milliseconds, the single-shot flag, whether it is running, the time left
until it fires, and how often `deleteLater()` was called on it. -/
structure QTimer where
  interval : Int
  singleShot : Bool
  active : Bool
  remaining : Int
  deleteLaterCalls : Nat
deriving DecidableEq, Repr

namespace QTimer

/-- A freshly constructed timer: interval 0, repeating, not running. -/
def new : QTimer :=
  { interval := 0, singleShot := false, active := false, remaining := 0, deleteLaterCalls := 0 }

/-- `QTimer::setSingleShot`. -/
def setSingleShot (t : QTimer) (b : Bool) : QTimer :=
  { t with singleShot := b }

/-- `QTimer::start(int msec)`: sets the interval and starts, or restarts, the timer. -/
def startMsec (t : QTimer) (msec : Int) : QTimer :=
  { t with interval := msec, active := true, remaining := msec }

/-- `QTimer::start()`: starts, or restarts, the timer with its own interval. -/
def start (t : QTimer) : QTimer :=
  { t with active := true, remaining := t.interval }

/-- `QTimer::stop()`. -/
def stop (t : QTimer) : QTimer :=
  { t with active := false }

/-- `QObject::deleteLater()` on a timer. -/
def deleteLater (t : QTimer) : QTimer :=
  { t with deleteLaterCalls := t.deleteLaterCalls + 1 }

end QTimer

/-! ## The window state -/

/-- The members of `MainWindow` the slots read and write, the two object stores,
the two widgets of the settings form the slots consult
(`ui->popupTimeoutSpinBox->value()`, `ui->autoOpenUrlCheckBox->isChecked()`)
and the URLs handed to `QDesktopServices::openUrl`. -/
structure MainWindow where
  m_informerDialogsHash : QHash
  m_attachedDialogsHash : QHash
  m_timersHash : QHash
  dialogHeap : Nat → InformerDialog
  timerHeap : Nat → QTimer
  nextDialog : Nat
  nextTimer : Nat
  popupTimeout : Int
  autoOpenUrl : Bool
  openedUrls : List String

namespace MainWindow

/-- The window right after construction: no call is tracked, nothing is allocated. -/
def init (popupTimeout : Int) (autoOpenUrl : Bool) : MainWindow :=
  { m_informerDialogsHash := QHash.empty,
    m_attachedDialogsHash := QHash.empty,
    m_timersHash := QHash.empty,
    dialogHeap := fun _ => InformerDialog.new,
    timerHeap := fun _ => QTimer.new,
    nextDialog := 1,
    nextTimer := 1,
    popupTimeout := popupTimeout,
    autoOpenUrl := autoOpenUrl,
    openedUrls := [] }

/-- Calls a method on the dialog behind a pointer. -/
def updDialog (w : MainWindow) (p : Nat) (f : InformerDialog → InformerDialog) : MainWindow :=
  { w with dialogHeap := Function.update w.dialogHeap p (f (w.dialogHeap p)) }

/-- Calls a method on the timer behind a pointer. -/
def updTimer (w : MainWindow) (p : Nat) (f : QTimer → QTimer) : MainWindow :=
  { w with timerHeap := Function.update w.timerHeap p (f (w.timerHeap p)) }

/-- `MainWindow::onChannelCreated`.  The timer interval
`ui->popupTimeoutSpinBox->value() * 1000` is computed over the integers: the
spin box bounds its value far below what would overflow an `int`. -/
def onChannelCreated (w : MainWindow) (callId : String) (caller : Caller) : MainWindow :=
  let informerDialog := w.nextDialog
  let timer := w.nextTimer
  { w with
    dialogHeap := Function.update w.dialogHeap informerDialog
      (InformerDialog.show (InformerDialog.setCaller InformerDialog.new caller)),
    nextDialog := w.nextDialog + 1,
    timerHeap := Function.update w.timerHeap timer
      (QTimer.startMsec (QTimer.setSingleShot QTimer.new true) (w.popupTimeout * 1000)),
    nextTimer := w.nextTimer + 1,
    m_timersHash := w.m_timersHash.insert callId timer,
    m_informerDialogsHash := w.m_informerDialogsHash.insert callId informerDialog,
    openedUrls := if w.autoOpenUrl then w.openedUrls ++ [caller.callerUrl] else w.openedUrls }

/-- The tail shared by `onChannelAnswered` and `onChannelAnsweredAnother`:
`if (m_timersHash.contains(callId)) m_timersHash.value(callId)->start();`. -/
def restartTimer (w : MainWindow) (callId : String) : MainWindow :=
  if w.m_timersHash.contains callId then
    w.updTimer (w.m_timersHash.value callId) QTimer.start
  else w

/-- `MainWindow::onChannelAnswered`. -/
def onChannelAnswered (w : MainWindow) (callId : String) : MainWindow :=
  if !w.m_informerDialogsHash.contains callId then w
  else
    let informerDialog := w.m_informerDialogsHash.value callId
    let w1 :=
      if (w.dialogHeap informerDialog).visible then
        w.updDialog informerDialog (fun d => d.setState DialogState.kStateAnswered)
      else w
    w1.restartTimer callId

/-- `MainWindow::onChannelAnsweredAnother`. -/
def onChannelAnsweredAnother (w : MainWindow) (callId calleeNumber calleeName : String) :
    MainWindow :=
  if !w.m_informerDialogsHash.contains callId then w
  else
    let informerDialog := w.m_informerDialogsHash.value callId
    let w1 :=
      if (w.dialogHeap informerDialog).visible then
        w.updDialog informerDialog
          (fun d => (d.setCallee calleeNumber calleeName).setState
            DialogState.kStateAnsweredAnother)
      else w
    w1.restartTimer callId

/-- `MainWindow::timeout`, with `timer` the sender of the signal. -/
def timeout (w : MainWindow) (timer : Nat) : MainWindow :=
  if timer = 0 then w
  else
    let callId := w.m_timersHash.key timer
    if !w.m_informerDialogsHash.contains callId then w
    else
      let informerDialog := w.m_informerDialogsHash.value callId
      let w1 :=
        if (w.dialogHeap informerDialog).visible then
          w.updDialog informerDialog InformerDialog.close
        else w
      let w2 := { w1 with m_informerDialogsHash := w1.m_informerDialogsHash.remove callId }
      w2.updDialog informerDialog InformerDialog.deleteLater

/-- `MainWindow::onChannelDestroyed`. -/
def onChannelDestroyed (w : MainWindow) (callId : String) : MainWindow :=
  if !w.m_informerDialogsHash.contains callId then w
  else
    let informerDialog := w.m_informerDialogsHash.value callId
    let w1 :=
      if (w.dialogHeap informerDialog).visible && !(w.dialogHeap informerDialog).attached then
        w.updDialog informerDialog InformerDialog.close
      else w
    let w2 := { w1 with m_informerDialogsHash := w1.m_informerDialogsHash.remove callId }
    let w3 := w2.updDialog informerDialog InformerDialog.deleteLater
    if w3.m_timersHash.contains callId then
      let timer := w3.m_timersHash.value callId
      let w4 := { w3 with m_timersHash := w3.m_timersHash.remove callId }
      (w4.updTimer timer QTimer.stop).updTimer timer QTimer.deleteLater
    else w3

/-- `MainWindow::processDialogFinished`, with `informerDialog` the sender. -/
def processDialogFinished (w : MainWindow) (informerDialog : Nat) : MainWindow :=
  if w.m_informerDialogsHash.values.contains informerDialog then
    let callId := w.m_informerDialogsHash.key informerDialog
    { w with m_informerDialogsHash := w.m_informerDialogsHash.remove callId }
  else if w.m_attachedDialogsHash.values.contains informerDialog then
    let callId := w.m_attachedDialogsHash.key informerDialog
    { w with m_attachedDialogsHash := w.m_attachedDialogsHash.remove callId }
  else w

/-- `MainWindow::processDialogAttached`, with `informerDialog` the sender. -/
def processDialogAttached (w : MainWindow) (informerDialog : Nat) (attached : Bool) :
    MainWindow :=
  if attached then
    let callId := w.m_informerDialogsHash.key informerDialog
    let w1 := { w with m_attachedDialogsHash := w.m_attachedDialogsHash.insert callId informerDialog }
    { w1 with m_informerDialogsHash := w1.m_informerDialogsHash.remove callId }
  else
    let callId := w.m_attachedDialogsHash.key informerDialog
    let w1 := { w with m_attachedDialogsHash := w.m_attachedDialogsHash.remove callId }
    { w1 with m_informerDialogsHash := w1.m_informerDialogsHash.insert callId informerDialog }

/-- The body of both loops of `closeAllPopups`: `close()` then `deleteLater()`. -/
def closeAndDelete (w : MainWindow) (informerDialog : Nat) : MainWindow :=
  (w.updDialog informerDialog InformerDialog.close).updDialog informerDialog
    InformerDialog.deleteLater

/-- `MainWindow::closeAllPopups`. -/
def closeAllPopups (w : MainWindow) : MainWindow :=
  let w1 := w.m_informerDialogsHash.values.foldl closeAndDelete w
  let w2 := { w1 with m_informerDialogsHash := w1.m_informerDialogsHash.clear }
  let w3 := w2.m_attachedDialogsHash.values.foldl closeAndDelete w2
  { w3 with m_attachedDialogsHash := w3.m_attachedDialogsHash.clear }

end MainWindow

/-! ## Events -/

/-- The signals connected to the slots above (`connect` calls in the constructor
and in `onChannelCreated`, and the tray menu entry), each with its sender and
arguments. -/
inductive Event where
  | channelCreated (callId : String) (caller : Caller)
  | channelAnswered (callId : String)
  | channelAnsweredAnother (callId calleeNumber calleeName : String)
  | channelDestroyed (callId : String)
  | timerTimeout (timer : Nat)
  | dialogFinished (informerDialog : Nat)
  | dialogAttached (informerDialog : Nat) (attached : Bool)
  | closeAllPopups
deriving DecidableEq, Repr

open MainWindow in
/-- Delivery of one signal to its slot.  A dialog that reports a change of its
attached flag has that flag already set when the slot runs. -/
def step (w : MainWindow) : Event → MainWindow
  | .channelCreated callId caller => w.onChannelCreated callId caller
  | .channelAnswered callId => w.onChannelAnswered callId
  | .channelAnsweredAnother callId calleeNumber calleeName =>
      w.onChannelAnsweredAnother callId calleeNumber calleeName
  | .channelDestroyed callId => w.onChannelDestroyed callId
  | .timerTimeout timer => w.timeout timer
  | .dialogFinished informerDialog => w.processDialogFinished informerDialog
  | .dialogAttached informerDialog attached =>
      (w.updDialog informerDialog (fun d => d.setAttached attached)).processDialogAttached
        informerDialog attached
  | .closeAllPopups => w.closeAllPopups

/-- Delivery of a sequence of signals, in order. -/
def run (w : MainWindow) : List Event → MainWindow
  | [] => w
  | e :: es => run (step w e) es

/-- The call identifier is a key of none of the three hashes. -/
def MainWindow.untracked (w : MainWindow) (callId : String) : Prop :=
  w.m_informerDialogsHash.contains callId = false ∧
  w.m_attachedDialogsHash.contains callId = false ∧
  w.m_timersHash.contains callId = false

instance (w : MainWindow) (callId : String) : Decidable (w.untracked callId) := by
  unfold MainWindow.untracked; infer_instance

/-- The precondition of a "created" event: it names an identifier that is, at
that moment, a key of none of the three hashes.  No other event has one. -/
def Event.admissible (w : MainWindow) : Event → Prop
  | .channelCreated callId _ => w.untracked callId
  | _ => True

instance (w : MainWindow) (e : Event) : Decidable (e.admissible w) := by
  cases e <;> unfold Event.admissible <;> infer_instance

/-- Every "created" event of the sequence names an identifier that is, when the
event arrives, a key of none of the three hashes. -/
def createdFresh (w : MainWindow) : List Event → Prop
  | [] => True
  | e :: es => e.admissible w ∧ createdFresh (step w e) es

/-- Decision procedure for `createdFresh`. -/
def decCreatedFresh : (es : List Event) → (w : MainWindow) → Decidable (createdFresh w es)
  | [], _ => isTrue trivial
  | e :: es, w =>
    match (inferInstance : Decidable (e.admissible w)), decCreatedFresh es (step w e) with
    | isTrue h1, isTrue h2 => isTrue ⟨h1, h2⟩
    | isFalse h1, _ => isFalse (fun h => h1 h.1)
    | _, isFalse h2 => isFalse (fun h => h2 h.2)

instance (w : MainWindow) (es : List Event) : Decidable (createdFresh w es) :=
  decCreatedFresh es w

/-- The pointer `v` is registered under the key `k`: looking `k` up yields `v`, and
looking `v` up in reverse, as the slots do for the sender of a signal, yields
`k`. -/
def QHash.holds (h : QHash) (k : String) (v : Nat) : Prop :=
  h.contains k = true ∧ h.value k = v ∧ h.key v = k

instance (h : QHash) (k : String) (v : Nat) : Decidable (h.holds k v) := by
  unfold QHash.holds; infer_instance

/-- Every timer held by `m_timersHash` was handed out by `new` before, and no
timer is held under two keys. -/
def MainWindow.timersDistinct (w : MainWindow) : Prop :=
  (∀ e ∈ w.m_timersHash.entries, e.2 < w.nextTimer) ∧ w.m_timersHash.values.Nodup

/-- Two hashes are the same map: they have the same keys and store the same
pointer under each of them.  This is equality of `QHash` values in Qt, which
does not look at the iteration order. -/
def QHash.sameMap (h h' : QHash) : Prop :=
  ∀ k, h.contains k = h'.contains k ∧ h.value k = h'.value k

/-- The senders and identifiers of a well-behaved event: a "created" event names
an identifier that is a key of none of the three hashes, `dialogAttached(true)`
comes from a dialog held by `m_informerDialogsHash`, `dialogAttached(false)` from
a dialog held by `m_attachedDialogsHash`, and `timeout` from a timer held by
`m_timersHash`.  The other events are not restricted. -/
def Event.disciplined (w : MainWindow) : Event → Prop
  | .channelCreated callId _ => w.untracked callId
  | .dialogAttached informerDialog true => informerDialog ∈ w.m_informerDialogsHash.values
  | .dialogAttached informerDialog false => informerDialog ∈ w.m_attachedDialogsHash.values
  | .timerTimeout timer => timer ∈ w.m_timersHash.values
  | _ => True

instance (w : MainWindow) (e : Event) : Decidable (e.disciplined w) := by
  cases e with
  | dialogAttached informerDialog attached =>
    cases attached <;> unfold Event.disciplined <;> infer_instance
  | _ => unfold Event.disciplined; infer_instance

/-- Every event of the sequence is well-behaved when it arrives. -/
def disciplinedTrace (w : MainWindow) : List Event → Prop
  | [] => True
  | e :: es => e.disciplined w ∧ disciplinedTrace (step w e) es

/-- Decision procedure for `disciplinedTrace`. -/
def decDisciplinedTrace :
    (es : List Event) → (w : MainWindow) → Decidable (disciplinedTrace w es)
  | [], _ => isTrue trivial
  | e :: es, w =>
    match (inferInstance : Decidable (e.disciplined w)), decDisciplinedTrace es (step w e) with
    | isTrue h1, isTrue h2 => isTrue ⟨h1, h2⟩
    | isFalse h1, _ => isFalse (fun h => h1 h.1)
    | _, isFalse h2 => isFalse (fun h => h2 h.2)

instance (w : MainWindow) (es : List Event) : Decidable (disciplinedTrace w es) :=
  decDisciplinedTrace es w

/-- Ownership of dialogs: no dialog is held twice by the two dialog hashes, every
dialog they hold was handed out by `new` and has not been released, and no
dialog at all has been released more than once. -/
def MainWindow.dialogsOwnedOnce (w : MainWindow) : Prop :=
  w.m_informerDialogsHash.values.Nodup ∧
  w.m_attachedDialogsHash.values.Nodup ∧
  (∀ d, d ∈ w.m_informerDialogsHash.values → d ∉ w.m_attachedDialogsHash.values) ∧
  (∀ d, d ∈ w.m_informerDialogsHash.values ∨ d ∈ w.m_attachedDialogsHash.values →
    d < w.nextDialog ∧ (w.dialogHeap d).deleteLaterCalls = 0) ∧
  (∀ p, (w.dialogHeap p).deleteLaterCalls ≤ 1)

/-- Ownership of timers: no timer is held twice by `m_timersHash`, every timer it
holds was handed out by `new` and has not been released, and no timer at all
has been released more than once. -/
def MainWindow.timersOwnedOnce (w : MainWindow) : Prop :=
  w.m_timersHash.values.Nodup ∧
  (∀ t, t ∈ w.m_timersHash.values → t < w.nextTimer ∧ (w.timerHeap t).deleteLaterCalls = 0) ∧
  (∀ q, (w.timerHeap q).deleteLaterCalls ≤ 1)

/-! ## Facts about `QHash` -/

namespace QHash

theorem contains_empty (k : String) : empty.contains k = false := rfl

theorem contains_iff (h : QHash) (k : String) :
    h.contains k = true ↔ ∃ v, (k, v) ∈ h.entries := by
  simp only [contains, List.any_eq_true, beq_iff_eq]
  constructor
  · rintro ⟨⟨a, v⟩, he, rfl⟩
    exact ⟨v, he⟩
  · rintro ⟨v, he⟩
    exact ⟨(k, v), he, rfl⟩

theorem mem_remove (h : QHash) (k : String) (e : String × Nat) :
    e ∈ (h.remove k).entries ↔ e ∈ h.entries ∧ e.1 ≠ k := by
  simp [remove, List.mem_filter]

theorem contains_remove (h : QHash) (k k' : String) :
    (h.remove k).contains k' = (h.contains k' && (k' != k)) := by
  rw [Bool.eq_iff_iff]
  simp only [Bool.and_eq_true, contains_iff, mem_remove, bne_iff_ne, ne_eq]
  constructor
  · rintro ⟨v, hv, hne⟩
    exact ⟨⟨v, hv⟩, hne⟩
  · rintro ⟨⟨v, hv⟩, hne⟩
    exact ⟨v, hv, hne⟩

theorem contains_remove_self (h : QHash) (k : String) : (h.remove k).contains k = false := by
  simp [contains_remove]

theorem contains_insert (h : QHash) (k : String) (v : Nat) (k' : String) :
    (h.insert k v).contains k' = (k' == k || h.contains k') := by
  have hr := contains_remove h k k'
  simp only [contains] at hr
  simp only [insert, contains, List.any_cons, hr]
  by_cases hk : k = k'
  · subst hk
    simp only [beq_self_eq_true, Bool.true_or]
  · have hk' : k' ≠ k := fun h => hk h.symm
    simp only [beq_eq_false_iff_ne.mpr hk, beq_eq_false_iff_ne.mpr hk', bne_iff_ne.mpr hk',
      Bool.false_or, Bool.and_true]

theorem contains_insert_self (h : QHash) (k : String) (v : Nat) :
    (h.insert k v).contains k = true := by
  simp [contains_insert]

theorem value_remove_of_ne (h : QHash) {k k' : String} (hne : k' ≠ k) :
    (h.remove k).value k' = h.value k' := by
  have hp : (fun e : String × Nat => decide ((e.1 != k) = true ∧ (e.1 == k') = true))
      = (fun e => e.1 == k') := by
    funext e
    by_cases he : e.1 = k'
    · have h1 : e.1 ≠ k := fun h => hne (he.symm.trans h)
      simp [he, hne]
    · simp [he]
  simp only [remove, value, List.find?_filter, hp]

theorem value_insert_self (h : QHash) (k : String) (v : Nat) : (h.insert k v).value k = v := by
  simp [insert, value]

theorem value_insert_of_ne (h : QHash) {k k' : String} (v : Nat) (hne : k' ≠ k) :
    (h.insert k v).value k' = h.value k' := by
  have hr := value_remove_of_ne h hne
  simp only [value] at hr
  have : k ≠ k' := fun h => hne h.symm
  simp only [insert, value, List.find?_cons, beq_eq_false_iff_ne.mpr this, hr]

theorem key_insert_self (h : QHash) (k : String) (v : Nat) : (h.insert k v).key v = k := by
  simp [insert, key]

theorem remove_of_not_contains (h : QHash) {k : String} (hk : h.contains k = false) :
    h.remove k = h := by
  obtain ⟨l⟩ := h
  simp only [contains, List.any_eq_false] at hk
  simp only [remove, mk.injEq, List.filter_eq_self]
  intro e he
  have := hk e he
  simpa using this

theorem remove_empty (k : String) : empty.remove k = empty := rfl

theorem remove_insert_self (h : QHash) (k : String) (v : Nat) :
    (h.insert k v).remove k = h.remove k := by
  simp [insert, remove, List.filter_cons, List.filter_filter]

theorem mem_of_contains (h : QHash) {k : String} (hk : h.contains k = true) :
    (k, h.value k) ∈ h.entries := by
  obtain ⟨l⟩ := h
  induction l with
  | nil => simp [contains] at hk
  | cons e l ih =>
    by_cases he : e.1 = k
    · have : value ⟨e :: l⟩ k = e.2 := by simp [value, List.find?_cons, he]
      rw [this, ← he]
      exact List.mem_cons_self _ _
    · have hv : value ⟨e :: l⟩ k = value ⟨l⟩ k := by simp [value, List.find?_cons, he]
      have hc : contains ⟨l⟩ k = true := by
        simpa [contains, he] using hk
      rw [hv]
      exact List.mem_cons_of_mem _ (ih hc)

theorem key_of_mem_of_nodup (h : QHash) {k : String} {v : Nat} (hnd : h.values.Nodup)
    (hm : (k, v) ∈ h.entries) : h.key v = k := by
  obtain ⟨l⟩ := h
  induction l with
  | nil => simp at hm
  | cons e l ih =>
    simp only [values, List.map_cons, List.nodup_cons] at hnd
    by_cases he : e.2 = v
    · have hk : key ⟨e :: l⟩ v = e.1 := by simp [key, List.find?_cons, he]
      rw [hk]
      rcases List.mem_cons.mp hm with h1 | h1
      · rw [← h1]
      · exact absurd (List.mem_map_of_mem Prod.snd h1) (by simpa [he] using hnd.1)
    · have hk : key ⟨e :: l⟩ v = key ⟨l⟩ v := by simp [key, List.find?_cons, he]
      rw [hk]
      rcases List.mem_cons.mp hm with h1 | h1
      · exact absurd (by rw [← h1]) he
      · exact ih hnd.2 h1

theorem holds_of_nodup (h : QHash) {k : String} {v : Nat} (hnd : h.values.Nodup)
    (hk : h.contains k = true) (hv : h.value k = v) : h.holds k v := by
  refine ⟨hk, hv, ?_⟩
  have hm := mem_of_contains h hk
  rw [hv] at hm
  exact key_of_mem_of_nodup h hnd hm

theorem remove_entries_sublist (h : QHash) (k : String) :
    List.Sublist (h.remove k).entries h.entries :=
  List.filter_sublist _

theorem values_insert (h : QHash) (k : String) (v : Nat) :
    (h.insert k v).values = v :: (h.remove k).values := rfl

end QHash

/-! ## What each slot does to the three hashes -/

namespace MainWindow

@[simp] theorem updDialog_free (w : MainWindow) (p : Nat) (f : InformerDialog → InformerDialog) :
    (w.updDialog p f).m_informerDialogsHash = w.m_informerDialogsHash := rfl

@[simp] theorem updDialog_pinned (w : MainWindow) (p : Nat) (f : InformerDialog → InformerDialog) :
    (w.updDialog p f).m_attachedDialogsHash = w.m_attachedDialogsHash := rfl

@[simp] theorem updDialog_timers (w : MainWindow) (p : Nat) (f : InformerDialog → InformerDialog) :
    (w.updDialog p f).m_timersHash = w.m_timersHash := rfl

@[simp] theorem updDialog_timerHeap (w : MainWindow) (p : Nat)
    (f : InformerDialog → InformerDialog) : (w.updDialog p f).timerHeap = w.timerHeap := rfl

@[simp] theorem updTimer_free (w : MainWindow) (p : Nat) (f : QTimer → QTimer) :
    (w.updTimer p f).m_informerDialogsHash = w.m_informerDialogsHash := rfl

@[simp] theorem updTimer_pinned (w : MainWindow) (p : Nat) (f : QTimer → QTimer) :
    (w.updTimer p f).m_attachedDialogsHash = w.m_attachedDialogsHash := rfl

@[simp] theorem updTimer_timers (w : MainWindow) (p : Nat) (f : QTimer → QTimer) :
    (w.updTimer p f).m_timersHash = w.m_timersHash := rfl

@[simp] theorem updTimer_dialogHeap (w : MainWindow) (p : Nat) (f : QTimer → QTimer) :
    (w.updTimer p f).dialogHeap = w.dialogHeap := rfl

theorem onChannelCreated_free (w : MainWindow) (callId : String) (caller : Caller) :
    (w.onChannelCreated callId caller).m_informerDialogsHash
      = w.m_informerDialogsHash.insert callId w.nextDialog := rfl

theorem onChannelCreated_pinned (w : MainWindow) (callId : String) (caller : Caller) :
    (w.onChannelCreated callId caller).m_attachedDialogsHash = w.m_attachedDialogsHash := rfl

theorem onChannelCreated_timers (w : MainWindow) (callId : String) (caller : Caller) :
    (w.onChannelCreated callId caller).m_timersHash
      = w.m_timersHash.insert callId w.nextTimer := rfl

theorem restartTimer_free (w : MainWindow) (callId : String) :
    (w.restartTimer callId).m_informerDialogsHash = w.m_informerDialogsHash := by
  unfold restartTimer; split <;> rfl

theorem restartTimer_pinned (w : MainWindow) (callId : String) :
    (w.restartTimer callId).m_attachedDialogsHash = w.m_attachedDialogsHash := by
  unfold restartTimer; split <;> rfl

theorem restartTimer_timers (w : MainWindow) (callId : String) :
    (w.restartTimer callId).m_timersHash = w.m_timersHash := by
  unfold restartTimer; split <;> rfl

theorem restartTimer_dialogHeap (w : MainWindow) (callId : String) :
    (w.restartTimer callId).dialogHeap = w.dialogHeap := by
  unfold restartTimer; split <;> rfl

theorem onChannelAnswered_free (w : MainWindow) (callId : String) :
    (w.onChannelAnswered callId).m_informerDialogsHash = w.m_informerDialogsHash := by
  unfold onChannelAnswered
  split
  · rfl
  · simp only [restartTimer_free]; split <;> rfl

theorem onChannelAnswered_pinned (w : MainWindow) (callId : String) :
    (w.onChannelAnswered callId).m_attachedDialogsHash = w.m_attachedDialogsHash := by
  unfold onChannelAnswered
  split
  · rfl
  · simp only [restartTimer_pinned]; split <;> rfl

theorem onChannelAnswered_timers (w : MainWindow) (callId : String) :
    (w.onChannelAnswered callId).m_timersHash = w.m_timersHash := by
  unfold onChannelAnswered
  split
  · rfl
  · simp only [restartTimer_timers]; split <;> rfl

theorem onChannelAnsweredAnother_free (w : MainWindow) (callId calleeNumber calleeName : String) :
    (w.onChannelAnsweredAnother callId calleeNumber calleeName).m_informerDialogsHash
      = w.m_informerDialogsHash := by
  unfold onChannelAnsweredAnother
  split
  · rfl
  · simp only [restartTimer_free]; split <;> rfl

theorem onChannelAnsweredAnother_pinned (w : MainWindow)
    (callId calleeNumber calleeName : String) :
    (w.onChannelAnsweredAnother callId calleeNumber calleeName).m_attachedDialogsHash
      = w.m_attachedDialogsHash := by
  unfold onChannelAnsweredAnother
  split
  · rfl
  · simp only [restartTimer_pinned]; split <;> rfl

theorem onChannelAnsweredAnother_timers (w : MainWindow)
    (callId calleeNumber calleeName : String) :
    (w.onChannelAnsweredAnother callId calleeNumber calleeName).m_timersHash
      = w.m_timersHash := by
  unfold onChannelAnsweredAnother
  split
  · rfl
  · simp only [restartTimer_timers]; split <;> rfl

theorem timeout_free (w : MainWindow) (timer : Nat) :
    (w.timeout timer).m_informerDialogsHash
      = if timer = 0 then w.m_informerDialogsHash
        else w.m_informerDialogsHash.remove (w.m_timersHash.key timer) := by
  unfold timeout
  by_cases h0 : timer = 0
  · simp [h0]
  · by_cases hc : w.m_informerDialogsHash.contains (w.m_timersHash.key timer) = true
    · simp only [h0, if_false, hc, Bool.not_true, Bool.false_eq_true, updDialog_free]
      split <;> rfl
    · have hc' : w.m_informerDialogsHash.contains (w.m_timersHash.key timer) = false := by
        simpa using hc
      simp [h0, hc', QHash.remove_of_not_contains]

theorem timeout_pinned (w : MainWindow) (timer : Nat) :
    (w.timeout timer).m_attachedDialogsHash = w.m_attachedDialogsHash := by
  unfold timeout
  split
  · rfl
  · dsimp only
    split
    · rfl
    · simp only [updDialog_pinned]; split <;> rfl

theorem timeout_timers (w : MainWindow) (timer : Nat) :
    (w.timeout timer).m_timersHash = w.m_timersHash := by
  unfold timeout
  split
  · rfl
  · dsimp only
    split
    · rfl
    · simp only [updDialog_timers]; split <;> rfl

theorem onChannelDestroyed_free (w : MainWindow) (callId : String) :
    (w.onChannelDestroyed callId).m_informerDialogsHash
      = w.m_informerDialogsHash.remove callId := by
  unfold onChannelDestroyed
  by_cases hc : w.m_informerDialogsHash.contains callId = true
  · simp only [hc, Bool.not_true, Bool.false_eq_true, if_false, updDialog_free, updDialog_timers]
    split <;> split <;> rfl
  · have hc' : w.m_informerDialogsHash.contains callId = false := by simpa using hc
    simp [hc', QHash.remove_of_not_contains]

theorem onChannelDestroyed_pinned (w : MainWindow) (callId : String) :
    (w.onChannelDestroyed callId).m_attachedDialogsHash = w.m_attachedDialogsHash := by
  unfold onChannelDestroyed
  split
  · rfl
  · simp only [updDialog_timers]
    split <;> split <;> rfl

theorem onChannelDestroyed_timers (w : MainWindow) (callId : String) :
    (w.onChannelDestroyed callId).m_timersHash
      = if w.m_informerDialogsHash.contains callId then w.m_timersHash.remove callId
        else w.m_timersHash := by
  unfold onChannelDestroyed
  by_cases hc : w.m_informerDialogsHash.contains callId = true
  · simp only [hc, Bool.not_true, Bool.false_eq_true, if_false, updDialog_timers, if_true]
    by_cases ht : w.m_timersHash.contains callId = true
    · split <;> simp [ht]
    · have ht' : w.m_timersHash.contains callId = false := by simpa using ht
      split <;> simp [ht', QHash.remove_of_not_contains]
  · have hc' : w.m_informerDialogsHash.contains callId = false := by simpa using hc
    simp [hc']

theorem processDialogFinished_timers (w : MainWindow) (informerDialog : Nat) :
    (w.processDialogFinished informerDialog).m_timersHash = w.m_timersHash := by
  unfold processDialogFinished
  split
  · rfl
  · split <;> rfl

theorem processDialogFinished_free (w : MainWindow) (informerDialog : Nat) :
    (w.processDialogFinished informerDialog).m_informerDialogsHash
      = if w.m_informerDialogsHash.values.contains informerDialog
        then w.m_informerDialogsHash.remove (w.m_informerDialogsHash.key informerDialog)
        else w.m_informerDialogsHash := by
  unfold processDialogFinished
  split
  · rfl
  · split <;> rfl

theorem processDialogFinished_pinned (w : MainWindow) (informerDialog : Nat) :
    (w.processDialogFinished informerDialog).m_attachedDialogsHash
      = if w.m_informerDialogsHash.values.contains informerDialog then w.m_attachedDialogsHash
        else if w.m_attachedDialogsHash.values.contains informerDialog
        then w.m_attachedDialogsHash.remove (w.m_attachedDialogsHash.key informerDialog)
        else w.m_attachedDialogsHash := by
  unfold processDialogFinished
  split
  · rfl
  · split <;> rfl

theorem processDialogAttached_free (w : MainWindow) (informerDialog : Nat) (attached : Bool) :
    (w.processDialogAttached informerDialog attached).m_informerDialogsHash
      = if attached
        then w.m_informerDialogsHash.remove (w.m_informerDialogsHash.key informerDialog)
        else w.m_informerDialogsHash.insert (w.m_attachedDialogsHash.key informerDialog)
          informerDialog := by
  unfold processDialogAttached
  split <;> rfl

theorem processDialogAttached_pinned (w : MainWindow) (informerDialog : Nat) (attached : Bool) :
    (w.processDialogAttached informerDialog attached).m_attachedDialogsHash
      = if attached
        then w.m_attachedDialogsHash.insert (w.m_informerDialogsHash.key informerDialog)
          informerDialog
        else w.m_attachedDialogsHash.remove (w.m_attachedDialogsHash.key informerDialog) := by
  unfold processDialogAttached
  split <;> rfl

theorem processDialogAttached_timers (w : MainWindow) (informerDialog : Nat) (attached : Bool) :
    (w.processDialogAttached informerDialog attached).m_timersHash = w.m_timersHash := by
  unfold processDialogAttached
  split <;> rfl

theorem processDialogAttached_timerHeap (w : MainWindow) (informerDialog : Nat)
    (attached : Bool) :
    (w.processDialogAttached informerDialog attached).timerHeap = w.timerHeap := by
  unfold processDialogAttached
  split <;> rfl

theorem foldl_closeAndDelete_free (l : List Nat) (w : MainWindow) :
    (l.foldl closeAndDelete w).m_informerDialogsHash = w.m_informerDialogsHash := by
  induction l generalizing w with
  | nil => rfl
  | cons p l ih => simp only [List.foldl_cons, ih]; rfl

theorem foldl_closeAndDelete_pinned (l : List Nat) (w : MainWindow) :
    (l.foldl closeAndDelete w).m_attachedDialogsHash = w.m_attachedDialogsHash := by
  induction l generalizing w with
  | nil => rfl
  | cons p l ih => simp only [List.foldl_cons, ih]; rfl

theorem foldl_closeAndDelete_timers (l : List Nat) (w : MainWindow) :
    (l.foldl closeAndDelete w).m_timersHash = w.m_timersHash := by
  induction l generalizing w with
  | nil => rfl
  | cons p l ih => simp only [List.foldl_cons, ih]; rfl

theorem closeAllPopups_free (w : MainWindow) :
    w.closeAllPopups.m_informerDialogsHash = QHash.empty := by
  simp only [closeAllPopups, foldl_closeAndDelete_free]; rfl

theorem closeAllPopups_pinned (w : MainWindow) :
    w.closeAllPopups.m_attachedDialogsHash = QHash.empty := rfl

theorem closeAllPopups_timers (w : MainWindow) :
    w.closeAllPopups.m_timersHash = w.m_timersHash := by
  simp only [closeAllPopups, foldl_closeAndDelete_timers]

end MainWindow

/-! ## Events for an identifier that `m_informerDialogsHash` does not hold -/

namespace MainWindow

theorem onChannelAnswered_of_not_contains (w : MainWindow) (callId : String)
    (h : w.m_informerDialogsHash.contains callId = false) : w.onChannelAnswered callId = w := by
  simp [onChannelAnswered, h]

theorem onChannelAnsweredAnother_of_not_contains (w : MainWindow)
    (callId calleeNumber calleeName : String)
    (h : w.m_informerDialogsHash.contains callId = false) :
    w.onChannelAnsweredAnother callId calleeNumber calleeName = w := by
  simp [onChannelAnsweredAnother, h]

theorem onChannelDestroyed_of_not_contains (w : MainWindow) (callId : String)
    (h : w.m_informerDialogsHash.contains callId = false) : w.onChannelDestroyed callId = w := by
  simp [onChannelDestroyed, h]

theorem timeout_of_not_contains (w : MainWindow) (timer : Nat)
    (h : w.m_informerDialogsHash.contains (w.m_timersHash.key timer) = false) :
    w.timeout timer = w := by
  simp [timeout, h]

end MainWindow

/-! ## The two dialog hashes never share a key -/

theorem step_preserves_disjoint (w : MainWindow) (e : Event) (hadm : e.admissible w)
    (hdis : ∀ k, ¬ (w.m_informerDialogsHash.contains k = true ∧
      w.m_attachedDialogsHash.contains k = true)) :
    ∀ k, ¬ ((step w e).m_informerDialogsHash.contains k = true ∧
      (step w e).m_attachedDialogsHash.contains k = true) := by
  intro k
  cases e with
  | channelCreated callId caller =>
    simp only [step, MainWindow.onChannelCreated_free, MainWindow.onChannelCreated_pinned,
      QHash.contains_insert, Bool.or_eq_true, beq_iff_eq]
    rintro ⟨h1 | h1, h2⟩
    · subst h1
      have := hadm.2.1
      rw [this] at h2
      exact Bool.false_ne_true h2
    · exact hdis k ⟨h1, h2⟩
  | channelAnswered callId =>
    simp only [step, MainWindow.onChannelAnswered_free, MainWindow.onChannelAnswered_pinned]
    exact hdis k
  | channelAnsweredAnother callId calleeNumber calleeName =>
    simp only [step, MainWindow.onChannelAnsweredAnother_free,
      MainWindow.onChannelAnsweredAnother_pinned]
    exact hdis k
  | channelDestroyed callId =>
    simp only [step, MainWindow.onChannelDestroyed_free, MainWindow.onChannelDestroyed_pinned,
      QHash.contains_remove, Bool.and_eq_true]
    rintro ⟨⟨h1, _⟩, h2⟩
    exact hdis k ⟨h1, h2⟩
  | timerTimeout timer =>
    simp only [step, MainWindow.timeout_free, MainWindow.timeout_pinned]
    split
    · exact hdis k
    · simp only [QHash.contains_remove, Bool.and_eq_true]
      rintro ⟨⟨h1, _⟩, h2⟩
      exact hdis k ⟨h1, h2⟩
  | dialogFinished informerDialog =>
    simp only [step, MainWindow.processDialogFinished_free,
      MainWindow.processDialogFinished_pinned]
    split
    · simp only [QHash.contains_remove, Bool.and_eq_true]
      rintro ⟨⟨h1, _⟩, h2⟩
      exact hdis k ⟨h1, h2⟩
    · split
      · simp only [QHash.contains_remove, Bool.and_eq_true]
        rintro ⟨h1, h2, _⟩
        exact hdis k ⟨h1, h2⟩
      · exact hdis k
  | dialogAttached informerDialog attached =>
    simp only [step, MainWindow.processDialogAttached_free,
      MainWindow.processDialogAttached_pinned, MainWindow.updDialog_free,
      MainWindow.updDialog_pinned]
    cases attached with
    | true =>
      simp only [if_true, QHash.contains_remove, QHash.contains_insert, Bool.and_eq_true,
        Bool.or_eq_true, beq_iff_eq, bne_iff_ne, ne_eq]
      rintro ⟨⟨h1, hne⟩, h2 | h2⟩
      · exact hne h2
      · exact hdis k ⟨h1, h2⟩
    | false =>
      simp only [Bool.false_eq_true, if_false, QHash.contains_remove, QHash.contains_insert,
        Bool.and_eq_true, Bool.or_eq_true, beq_iff_eq, bne_iff_ne, ne_eq]
      rintro ⟨h1 | h1, h2, hne⟩
      · exact hne h1
      · exact hdis k ⟨h1, h2⟩
  | closeAllPopups =>
    simp only [step, MainWindow.closeAllPopups_free, QHash.contains_empty]
    rintro ⟨h1, _⟩
    exact Bool.false_ne_true h1

theorem run_preserves_disjoint (es : List Event) (w : MainWindow) (hfresh : createdFresh w es)
    (hdis : ∀ k, ¬ (w.m_informerDialogsHash.contains k = true ∧
      w.m_attachedDialogsHash.contains k = true)) :
    ∀ k, ¬ ((run w es).m_informerDialogsHash.contains k = true ∧
      (run w es).m_attachedDialogsHash.contains k = true) := by
  induction es generalizing w with
  | nil => exact hdis
  | cons e es ih =>
    exact ih (step w e) hfresh.2 (step_preserves_disjoint w e hfresh.1 hdis)

theorem init_disjoint (popupTimeout : Int) (autoOpenUrl : Bool) :
    ∀ k, ¬ ((MainWindow.init popupTimeout autoOpenUrl).m_informerDialogsHash.contains k = true ∧
      (MainWindow.init popupTimeout autoOpenUrl).m_attachedDialogsHash.contains k = true) := by
  rintro k ⟨h1, _⟩
  exact Bool.false_ne_true h1

/-! ## Timers are registered under one key only -/

theorem step_nextTimer (w : MainWindow) (e : Event) :
    (step w e).nextTimer
      = match e with
        | .channelCreated _ _ => w.nextTimer + 1
        | _ => w.nextTimer := by
  cases e with
  | channelCreated callId caller => rfl
  | channelAnswered callId =>
    simp only [step, MainWindow.onChannelAnswered, MainWindow.restartTimer]
    repeat' split
    all_goals rfl
  | channelAnsweredAnother callId calleeNumber calleeName =>
    simp only [step, MainWindow.onChannelAnsweredAnother, MainWindow.restartTimer]
    repeat' split
    all_goals rfl
  | channelDestroyed callId =>
    simp only [step, MainWindow.onChannelDestroyed]
    repeat' split
    all_goals rfl
  | timerTimeout timer =>
    simp only [step, MainWindow.timeout]
    repeat' split
    all_goals rfl
  | dialogFinished informerDialog =>
    simp only [step, MainWindow.processDialogFinished]
    split
    · rfl
    · split <;> rfl
  | dialogAttached informerDialog attached =>
    simp only [step, MainWindow.processDialogAttached]
    split <;> rfl
  | closeAllPopups =>
    have hfold : ∀ (l : List Nat) (w : MainWindow),
        (l.foldl MainWindow.closeAndDelete w).nextTimer = w.nextTimer := by
      intro l
      induction l with
      | nil => intro w; rfl
      | cons p l ih => intro w; simp only [List.foldl_cons, ih]; rfl
    simp only [step, MainWindow.closeAllPopups, hfold]

theorem step_timers_sublist (w : MainWindow) (e : Event)
    (he : ∀ callId caller, e ≠ .channelCreated callId caller) :
    List.Sublist (step w e).m_timersHash.entries w.m_timersHash.entries := by
  cases e with
  | channelCreated callId caller => exact absurd rfl (he callId caller)
  | channelAnswered callId =>
    simp only [step, MainWindow.onChannelAnswered_timers]; exact List.Sublist.refl _
  | channelAnsweredAnother callId calleeNumber calleeName =>
    simp only [step, MainWindow.onChannelAnsweredAnother_timers]; exact List.Sublist.refl _
  | channelDestroyed callId =>
    simp only [step, MainWindow.onChannelDestroyed_timers]
    split
    · exact QHash.remove_entries_sublist _ _
    · exact List.Sublist.refl _
  | timerTimeout timer =>
    simp only [step, MainWindow.timeout_timers]; exact List.Sublist.refl _
  | dialogFinished informerDialog =>
    simp only [step, MainWindow.processDialogFinished_timers]; exact List.Sublist.refl _
  | dialogAttached informerDialog attached =>
    simp only [step, MainWindow.processDialogAttached_timers, MainWindow.updDialog_timers]
    exact List.Sublist.refl _
  | closeAllPopups =>
    simp only [step, MainWindow.closeAllPopups_timers]; exact List.Sublist.refl _

theorem step_preserves_timersDistinct (w : MainWindow) (e : Event) (h : w.timersDistinct) :
    (step w e).timersDistinct := by
  obtain ⟨hlt, hnd⟩ := h
  by_cases hc : ∃ callId caller, e = .channelCreated callId caller
  · obtain ⟨callId, caller, rfl⟩ := hc
    have hsub := QHash.remove_entries_sublist w.m_timersHash callId
    constructor
    · intro x hx
      simp only [step, MainWindow.onChannelCreated_timers, QHash.insert, List.mem_cons] at hx
      show x.2 < w.nextTimer + 1
      rcases hx with hx | hx
      · rw [hx]; exact Nat.lt_succ_self _
      · exact Nat.lt_succ_of_lt (hlt x (hsub.subset hx))
    · simp only [step, MainWindow.onChannelCreated_timers, QHash.values_insert,
        List.nodup_cons]
      constructor
      · intro hmem
        obtain ⟨x, hx, hx2⟩ := List.mem_map.mp hmem
        have := hlt x (hsub.subset hx)
        omega
      · exact hnd.sublist (hsub.map Prod.snd)
  · have hne : ∀ callId caller, e ≠ .channelCreated callId caller :=
      fun callId caller h => hc ⟨callId, caller, h⟩
    have hsub := step_timers_sublist w e hne
    have hnext : (step w e).nextTimer = w.nextTimer := by
      rw [step_nextTimer]
      cases e with
      | channelCreated callId caller => exact absurd rfl (hne callId caller)
      | _ => rfl
    constructor
    · intro x hx
      rw [hnext]
      exact hlt x (hsub.subset hx)
    · exact hnd.sublist (hsub.map Prod.snd)

theorem run_preserves_timersDistinct (es : List Event) (w : MainWindow)
    (h : w.timersDistinct) : (run w es).timersDistinct := by
  induction es generalizing w with
  | nil => exact h
  | cons e es ih => exact ih (step w e) (step_preserves_timersDistinct w e h)

theorem init_timersDistinct (popupTimeout : Int) (autoOpenUrl : Bool) :
    (MainWindow.init popupTimeout autoOpenUrl).timersDistinct :=
  ⟨fun _ hx => absurd hx (List.not_mem_nil _), List.nodup_nil⟩

/-! ## Timer intervals -/

theorem restartTimer_timerHeap (w : MainWindow) (callId : String)
    (h : w.m_timersHash.contains callId = true) :
    (w.restartTimer callId).timerHeap
      = Function.update w.timerHeap (w.m_timersHash.value callId)
          (w.timerHeap (w.m_timersHash.value callId)).start := by
  simp [MainWindow.restartTimer, h, MainWindow.updTimer]

theorem onChannelAnswered_timerHeap (w : MainWindow) (callId : String)
    (hf : w.m_informerDialogsHash.contains callId = true)
    (ht : w.m_timersHash.contains callId = true) :
    (w.onChannelAnswered callId).timerHeap
      = Function.update w.timerHeap (w.m_timersHash.value callId)
          (w.timerHeap (w.m_timersHash.value callId)).start := by
  simp only [MainWindow.onChannelAnswered, hf, Bool.not_true, Bool.false_eq_true, if_false]
  split
  · rw [restartTimer_timerHeap _ _ (by simpa using ht)]; rfl
  · rw [restartTimer_timerHeap _ _ ht]

theorem onChannelAnsweredAnother_timerHeap (w : MainWindow)
    (callId calleeNumber calleeName : String)
    (hf : w.m_informerDialogsHash.contains callId = true)
    (ht : w.m_timersHash.contains callId = true) :
    (w.onChannelAnsweredAnother callId calleeNumber calleeName).timerHeap
      = Function.update w.timerHeap (w.m_timersHash.value callId)
          (w.timerHeap (w.m_timersHash.value callId)).start := by
  simp only [MainWindow.onChannelAnsweredAnother, hf, Bool.not_true, Bool.false_eq_true,
    if_false]
  split
  · rw [restartTimer_timerHeap _ _ (by simpa using ht)]; rfl
  · rw [restartTimer_timerHeap _ _ ht]

/-- The interval a timer is restarted with is the one `onChannelCreated` started it
with: "created" sets the interval of the timer it allocates to the configured
timeout in milliseconds. -/
theorem onChannelCreated_interval (w : MainWindow) (callId : String) (caller : Caller) :
    ((w.onChannelCreated callId caller).timerHeap
        ((w.onChannelCreated callId caller).m_timersHash.value callId)).interval
      = w.popupTimeout * 1000 ∧
    ((w.onChannelCreated callId caller).timerHeap
        ((w.onChannelCreated callId caller).m_timersHash.value callId)).remaining
      = w.popupTimeout * 1000 := by
  rw [MainWindow.onChannelCreated_timers, QHash.value_insert_self]
  simp [MainWindow.onChannelCreated, QTimer.startMsec]

/-! ## What "destroyed" does to the dialog and the timer -/

theorem onChannelDestroyed_dialogHeap (w : MainWindow) (callId : String)
    (hf : w.m_informerDialogsHash.contains callId = true) :
    (w.onChannelDestroyed callId).dialogHeap
      = Function.update w.dialogHeap (w.m_informerDialogsHash.value callId)
          (if (w.dialogHeap (w.m_informerDialogsHash.value callId)).visible
              && !(w.dialogHeap (w.m_informerDialogsHash.value callId)).attached
           then (w.dialogHeap (w.m_informerDialogsHash.value callId)).close
           else w.dialogHeap (w.m_informerDialogsHash.value callId)).deleteLater := by
  simp only [MainWindow.onChannelDestroyed, hf, Bool.not_true, Bool.false_eq_true, if_false]
  split <;> split <;>
    simp [MainWindow.updDialog, MainWindow.updTimer, Function.update_idem,
      Function.update_same]

theorem onChannelDestroyed_timerHeap (w : MainWindow) (callId : String)
    (hf : w.m_informerDialogsHash.contains callId = true) :
    (w.onChannelDestroyed callId).timerHeap
      = if w.m_timersHash.contains callId
        then Function.update w.timerHeap (w.m_timersHash.value callId)
          (w.timerHeap (w.m_timersHash.value callId)).stop.deleteLater
        else w.timerHeap := by
  simp only [MainWindow.onChannelDestroyed, hf, Bool.not_true, Bool.false_eq_true, if_false]
  split <;> split <;>
    simp_all [MainWindow.updDialog, MainWindow.updTimer, Function.update_idem,
      Function.update_same]

/-- No slot changes the interval of a timer that exists already: the interval of
a timer is the one `onChannelCreated` gave it. -/
theorem step_interval (w : MainWindow) (e : Event) (q : Nat) (hq : q ≠ w.nextTimer) :
    ((step w e).timerHeap q).interval = (w.timerHeap q).interval := by
  have hfold : ∀ (l : List Nat) (w : MainWindow),
      (l.foldl MainWindow.closeAndDelete w).timerHeap = w.timerHeap := by
    intro l
    induction l with
    | nil => intro w; rfl
    | cons p l ih => intro w; simp only [List.foldl_cons, ih]; rfl
  cases e with
  | channelCreated callId caller =>
    simp [step, MainWindow.onChannelCreated, Function.update_noteq hq]
  | channelAnswered callId =>
    simp only [step, MainWindow.onChannelAnswered, MainWindow.restartTimer,
      MainWindow.updTimer, MainWindow.updDialog]
    repeat' split
    all_goals first
      | rfl
      | (by_cases h : q = w.m_timersHash.value callId
         · subst h; simp [QTimer.start]
         · simp [Function.update_noteq h])
  | channelAnsweredAnother callId calleeNumber calleeName =>
    simp only [step, MainWindow.onChannelAnsweredAnother, MainWindow.restartTimer,
      MainWindow.updTimer, MainWindow.updDialog]
    repeat' split
    all_goals first
      | rfl
      | (by_cases h : q = w.m_timersHash.value callId
         · subst h; simp [QTimer.start]
         · simp [Function.update_noteq h])
  | channelDestroyed callId =>
    by_cases hf : w.m_informerDialogsHash.contains callId = true
    · simp only [step, onChannelDestroyed_timerHeap w callId hf]
      split
      · by_cases h : q = w.m_timersHash.value callId
        · subst h; simp [QTimer.stop, QTimer.deleteLater]
        · simp [Function.update_noteq h]
      · rfl
    · have hf' : w.m_informerDialogsHash.contains callId = false := by simpa using hf
      simp only [step, MainWindow.onChannelDestroyed_of_not_contains w callId hf']
  | timerTimeout timer =>
    simp only [step, MainWindow.timeout, MainWindow.updDialog]
    repeat' split
    all_goals rfl
  | dialogFinished informerDialog =>
    simp only [step, MainWindow.processDialogFinished]
    repeat' split
    all_goals rfl
  | dialogAttached informerDialog attached =>
    simp only [step, MainWindow.processDialogAttached_timerHeap, MainWindow.updDialog_timerHeap]
  | closeAllPopups =>
    simp only [step, MainWindow.closeAllPopups, hfold]

/-! ## Claims -/

open MainWindow

/-- C1: starting from any state whose three hashes are empty, a "created" event
for an identifier followed at once by "destroyed" for the same identifier
leaves `m_informerDialogsHash`, `m_attachedDialogsHash` and `m_timersHash`
empty. -/
theorem created_then_destroyed_leaves_all_empty (w : MainWindow) (callId : String)
    (caller : Caller)
    (hfree : w.m_informerDialogsHash = QHash.empty)
    (hpinned : w.m_attachedDialogsHash = QHash.empty)
    (htimers : w.m_timersHash = QHash.empty) :
    (run w [.channelCreated callId caller, .channelDestroyed callId]).m_informerDialogsHash
        = QHash.empty ∧
    (run w [.channelCreated callId caller, .channelDestroyed callId]).m_attachedDialogsHash
        = QHash.empty ∧
    (run w [.channelCreated callId caller, .channelDestroyed callId]).m_timersHash
        = QHash.empty := by
  simp only [run, step]
  refine ⟨?_, ?_, ?_⟩
  · rw [onChannelDestroyed_free, onChannelCreated_free, QHash.remove_insert_self, hfree]
    rfl
  · rw [onChannelDestroyed_pinned, onChannelCreated_pinned, hpinned]
  · rw [onChannelDestroyed_timers, onChannelCreated_free, onChannelCreated_timers,
      QHash.contains_insert_self, if_pos rfl, QHash.remove_insert_self, htimers]
    rfl

/-- Witness of C1 on the freshly constructed window, call "A". -/
theorem created_then_destroyed_leaves_all_empty_witness :
    (run (MainWindow.init 5 false)
        [.channelCreated "A" ⟨"Alice", "http://a"⟩, .channelDestroyed "A"]).m_informerDialogsHash
        = QHash.empty ∧
    (run (MainWindow.init 5 false)
        [.channelCreated "A" ⟨"Alice", "http://a"⟩, .channelDestroyed "A"]).m_attachedDialogsHash
        = QHash.empty ∧
    (run (MainWindow.init 5 false)
        [.channelCreated "A" ⟨"Alice", "http://a"⟩, .channelDestroyed "A"]).m_timersHash
        = QHash.empty :=
  created_then_destroyed_leaves_all_empty (MainWindow.init 5 false) "A" ⟨"Alice", "http://a"⟩
    rfl rfl rfl

/-- C2: let `A` be a key of none of the three hashes and let the dialog that
`new` is about to hand out not be held by `m_informerDialogsHash` already.  After
"created" for `A` and `dialogAttached(true)` from the dialog registered for
`A`, the "destroyed" event for `A` changes nothing at all: the dialog is still
shown, was never closed or released, is registered under `A` in
`m_attachedDialogsHash` and `A` is no key of `m_informerDialogsHash`.  A
`finished` signal from that dialog then removes `A` from
`m_attachedDialogsHash`, which is back to what it was before the call (empty,
if it was empty). -/
theorem destroyed_keeps_attached_dialog_until_finished (w : MainWindow) (A : String)
    (caller : Caller) (hA : w.untracked A)
    (hnew : w.nextDialog ∉ w.m_informerDialogsHash.values) :
    let d := (step w (.channelCreated A caller)).m_informerDialogsHash.value A
    let w2 := run w [.channelCreated A caller, .dialogAttached d true]
    let w3 := step w2 (.channelDestroyed A)
    let w4 := step w3 (.dialogFinished d)
    w3 = w2 ∧
    (w3.dialogHeap d).visible = true ∧
    (w3.dialogHeap d).closeCalls = 0 ∧
    (w3.dialogHeap d).deleteLaterCalls = 0 ∧
    w3.m_attachedDialogsHash.contains A = true ∧
    w3.m_attachedDialogsHash.value A = d ∧
    w3.m_informerDialogsHash.contains A = false ∧
    w4.m_attachedDialogsHash.contains A = false ∧
    w4.m_attachedDialogsHash = w.m_attachedDialogsHash := by
  obtain ⟨hf, hp, _⟩ := hA
  have hd : (step w (.channelCreated A caller)).m_informerDialogsHash.value A = w.nextDialog := by
    simp only [step, onChannelCreated_free, QHash.value_insert_self]
  simp only [hd]
  have hfree2 : (run w [.channelCreated A caller,
      .dialogAttached w.nextDialog true]).m_informerDialogsHash = w.m_informerDialogsHash := by
    simp only [run, step, processDialogAttached, if_true, updDialog_free, onChannelCreated_free,
      QHash.key_insert_self, QHash.remove_insert_self, QHash.remove_of_not_contains _ hf]
  have hpin2 : (run w [.channelCreated A caller,
      .dialogAttached w.nextDialog true]).m_attachedDialogsHash
        = w.m_attachedDialogsHash.insert A w.nextDialog := by
    simp only [run, step, processDialogAttached, if_true, updDialog_free, updDialog_pinned,
      onChannelCreated_free, onChannelCreated_pinned, QHash.key_insert_self]
  have hheap2 : (run w [.channelCreated A caller,
      .dialogAttached w.nextDialog true]).dialogHeap w.nextDialog
        = ((InformerDialog.new.setCaller caller).show).setAttached true := by
    simp [run, step, processDialogAttached, updDialog, onChannelCreated]
  have h32 : step (run w [.channelCreated A caller, .dialogAttached w.nextDialog true])
      (.channelDestroyed A) = run w [.channelCreated A caller, .dialogAttached w.nextDialog true] := by
    simp only [step]
    apply onChannelDestroyed_of_not_contains
    rw [hfree2]; exact hf
  simp only [h32]
  have hv : w.m_informerDialogsHash.values.contains w.nextDialog = false := by
    simpa using hnew
  have hv2 : (w.m_attachedDialogsHash.insert A w.nextDialog).values.contains w.nextDialog
      = true := by
    simp [QHash.values_insert]
  refine ⟨trivial, ?_, ?_, ?_, ?_, ?_, ?_, ?_, ?_⟩
  · rw [hheap2]; rfl
  · rw [hheap2]; rfl
  · rw [hheap2]; rfl
  · rw [hpin2]; exact QHash.contains_insert_self _ _ _
  · rw [hpin2]; exact QHash.value_insert_self _ _ _
  · rw [hfree2]; exact hf
  · simp only [step, processDialogFinished_pinned, hfree2, hpin2, hv, Bool.false_eq_true,
      if_false, hv2, if_true, QHash.key_insert_self, QHash.remove_insert_self,
      QHash.contains_remove_self]
  · simp only [step, processDialogFinished_pinned, hfree2, hpin2, hv, Bool.false_eq_true,
      if_false, hv2, if_true, QHash.key_insert_self, QHash.remove_insert_self,
      QHash.remove_of_not_contains _ hp]

/-- Witness of C2 on the freshly constructed window, call "A". -/
theorem destroyed_keeps_attached_dialog_until_finished_witness :
    (MainWindow.init 5 false).untracked "A" ∧
    (MainWindow.init 5 false).nextDialog ∉ (MainWindow.init 5 false).m_informerDialogsHash.values ∧
    (let d := (step (MainWindow.init 5 false)
        (.channelCreated "A" ⟨"Alice", "http://a"⟩)).m_informerDialogsHash.value "A"
     let w2 := run (MainWindow.init 5 false)
        [.channelCreated "A" ⟨"Alice", "http://a"⟩, .dialogAttached d true]
     let w3 := step w2 (.channelDestroyed "A")
     let w4 := step w3 (.dialogFinished d)
     w3 = w2 ∧
     (w3.dialogHeap d).visible = true ∧
     (w3.dialogHeap d).closeCalls = 0 ∧
     (w3.dialogHeap d).deleteLaterCalls = 0 ∧
     w3.m_attachedDialogsHash.contains "A" = true ∧
     w3.m_attachedDialogsHash.value "A" = d ∧
     w3.m_informerDialogsHash.contains "A" = false ∧
     w4.m_attachedDialogsHash.contains "A" = false ∧
     w4.m_attachedDialogsHash = (MainWindow.init 5 false).m_attachedDialogsHash) :=
  ⟨by decide, by decide,
    destroyed_keeps_attached_dialog_until_finished (MainWindow.init 5 false) "A"
      ⟨"Alice", "http://a"⟩ (by decide) (by decide)⟩

/-- C3 (the code at the failing input): on the freshly constructed window,
"created" for call "B" registers dialog 1 and timer 1 under "B".  When timer 1
then fires, the slot closes and releases the dialog and removes "B" from
`m_informerDialogsHash`, but "B" is still a key of `m_timersHash`, still mapped
to timer 1, which is not released. -/
theorem timeout_leaves_timer_registered :
    (run (MainWindow.init 5 false)
        [.channelCreated "B" ⟨"Bob", "http://b"⟩]).m_informerDialogsHash.value "B" = 1 ∧
    (run (MainWindow.init 5 false)
        [.channelCreated "B" ⟨"Bob", "http://b"⟩]).m_timersHash.value "B" = 1 ∧
    (run (MainWindow.init 5 false)
        [.channelCreated "B" ⟨"Bob", "http://b"⟩, .timerTimeout 1]).m_informerDialogsHash.contains
        "B" = false ∧
    (run (MainWindow.init 5 false)
        [.channelCreated "B" ⟨"Bob", "http://b"⟩, .timerTimeout 1]).m_attachedDialogsHash.contains
        "B" = false ∧
    ((run (MainWindow.init 5 false)
        [.channelCreated "B" ⟨"Bob", "http://b"⟩, .timerTimeout 1]).dialogHeap 1).closeCalls
        = 1 ∧
    ((run (MainWindow.init 5 false)
        [.channelCreated "B" ⟨"Bob", "http://b"⟩, .timerTimeout 1]).dialogHeap 1).deleteLaterCalls
        = 1 ∧
    (run (MainWindow.init 5 false)
        [.channelCreated "B" ⟨"Bob", "http://b"⟩, .timerTimeout 1]).m_timersHash.contains
        "B" = true ∧
    (run (MainWindow.init 5 false)
        [.channelCreated "B" ⟨"Bob", "http://b"⟩, .timerTimeout 1]).m_timersHash.value "B" = 1 ∧
    ((run (MainWindow.init 5 false)
        [.channelCreated "B" ⟨"Bob", "http://b"⟩, .timerTimeout 1]).timerHeap 1).deleteLaterCalls
        = 0 := by
  decide

/-- C4: in every state, for every identifier that is not a key of
`m_informerDialogsHash`, each of `onChannelAnswered`, `onChannelAnsweredAnother`
and `onChannelDestroyed` returns the state it was given: the three hashes,
every dialog and every timer are unchanged. -/
theorem events_for_untracked_identifier_are_ignored (w : MainWindow)
    (callId calleeNumber calleeName : String)
    (h : w.m_informerDialogsHash.contains callId = false) :
    step w (.channelAnswered callId) = w ∧
    step w (.channelAnsweredAnother callId calleeNumber calleeName) = w ∧
    step w (.channelDestroyed callId) = w :=
  ⟨onChannelAnswered_of_not_contains w callId h,
   onChannelAnsweredAnother_of_not_contains w callId calleeNumber calleeName h,
   onChannelDestroyed_of_not_contains w callId h⟩

/-- Witness of C4: call "A" was created and pinned, so it is a key of
`m_attachedDialogsHash` and `m_timersHash` but not of `m_informerDialogsHash`. -/
theorem events_for_untracked_identifier_are_ignored_witness :
    (run (MainWindow.init 5 false)
      [.channelCreated "A" ⟨"Alice", "http://a"⟩,
       .dialogAttached 1 true]).m_informerDialogsHash.contains "A" = false ∧
    (step (run (MainWindow.init 5 false)
      [.channelCreated "A" ⟨"Alice", "http://a"⟩, .dialogAttached 1 true])
      (.channelAnswered "A")
      = run (MainWindow.init 5 false)
          [.channelCreated "A" ⟨"Alice", "http://a"⟩, .dialogAttached 1 true] ∧
     step (run (MainWindow.init 5 false)
      [.channelCreated "A" ⟨"Alice", "http://a"⟩, .dialogAttached 1 true])
      (.channelAnsweredAnother "A" "101" "Carol")
      = run (MainWindow.init 5 false)
          [.channelCreated "A" ⟨"Alice", "http://a"⟩, .dialogAttached 1 true] ∧
     step (run (MainWindow.init 5 false)
      [.channelCreated "A" ⟨"Alice", "http://a"⟩, .dialogAttached 1 true])
      (.channelDestroyed "A")
      = run (MainWindow.init 5 false)
          [.channelCreated "A" ⟨"Alice", "http://a"⟩, .dialogAttached 1 true]) :=
  ⟨by decide,
   events_for_untracked_identifier_are_ignored _ "A" "101" "Carol" (by decide)⟩

/-- C5 (counterexample): on the freshly constructed window, after "created" for
call "C" the identifier is a key of `m_informerDialogsHash` and `m_timersHash`;
a second "created" for "C" maps it to another dialog and another timer. -/
theorem second_created_replaces_entries :
    (step (MainWindow.init 5 false)
      (.channelCreated "C" ⟨"Carl", "http://c"⟩)).m_informerDialogsHash.contains "C" = true ∧
    (step (MainWindow.init 5 false)
      (.channelCreated "C" ⟨"Carl", "http://c"⟩)).m_timersHash.contains "C" = true ∧
    (run (MainWindow.init 5 false)
      [.channelCreated "C" ⟨"Carl", "http://c"⟩,
       .channelCreated "C" ⟨"Carl", "http://c"⟩]).m_informerDialogsHash.value "C"
      ≠ (step (MainWindow.init 5 false)
          (.channelCreated "C" ⟨"Carl", "http://c"⟩)).m_informerDialogsHash.value "C" ∧
    (run (MainWindow.init 5 false)
      [.channelCreated "C" ⟨"Carl", "http://c"⟩,
       .channelCreated "C" ⟨"Carl", "http://c"⟩]).m_timersHash.value "C"
      ≠ (step (MainWindow.init 5 false)
          (.channelCreated "C" ⟨"Carl", "http://c"⟩)).m_timersHash.value "C" := by
  decide

/-- C5 (amended): for an identifier that is already a key of
`m_informerDialogsHash` and `m_timersHash`, registered to a dialog and a timer
other than the ones `new` hands out next, a second "created" replaces both
entries: afterwards the identifier is mapped to the newly allocated dialog and
the newly allocated timer, which differ from the first ones; the first dialog
and the first timer are left exactly as they were (neither closed, stopped nor
released), and `m_attachedDialogsHash` is unchanged. -/
theorem second_created_overwrites (w : MainWindow) (callId : String) (caller : Caller)
    (hfree : w.m_informerDialogsHash.contains callId = true)
    (htimers : w.m_timersHash.contains callId = true)
    (hd : w.m_informerDialogsHash.value callId ≠ w.nextDialog)
    (ht : w.m_timersHash.value callId ≠ w.nextTimer) :
    (step w (.channelCreated callId caller)).m_informerDialogsHash.contains callId = true ∧
    (step w (.channelCreated callId caller)).m_informerDialogsHash.value callId = w.nextDialog ∧
    (step w (.channelCreated callId caller)).m_informerDialogsHash.value callId
      ≠ w.m_informerDialogsHash.value callId ∧
    (step w (.channelCreated callId caller)).m_timersHash.contains callId = true ∧
    (step w (.channelCreated callId caller)).m_timersHash.value callId = w.nextTimer ∧
    (step w (.channelCreated callId caller)).m_timersHash.value callId
      ≠ w.m_timersHash.value callId ∧
    (step w (.channelCreated callId caller)).dialogHeap (w.m_informerDialogsHash.value callId)
      = w.dialogHeap (w.m_informerDialogsHash.value callId) ∧
    (step w (.channelCreated callId caller)).timerHeap (w.m_timersHash.value callId)
      = w.timerHeap (w.m_timersHash.value callId) ∧
    (step w (.channelCreated callId caller)).m_attachedDialogsHash = w.m_attachedDialogsHash := by
  have _ := hfree
  have _ := htimers
  simp only [step, onChannelCreated_free, onChannelCreated_timers, onChannelCreated_pinned,
    QHash.contains_insert_self, QHash.value_insert_self]
  refine ⟨trivial, trivial, fun h => hd h.symm, trivial, trivial, fun h => ht h.symm, ?_, ?_,
    trivial⟩
  · simp [onChannelCreated, Function.update, hd]
  · simp [onChannelCreated, Function.update, ht]

/-- Witness of C5 (amended): the window after one "created" for call "C". -/
theorem second_created_overwrites_witness :
    (step (step (MainWindow.init 5 false) (.channelCreated "C" ⟨"Carl", "http://c"⟩))
      (.channelCreated "C" ⟨"Carl", "http://c"⟩)).m_informerDialogsHash.value "C" = 2 ∧
    (step (step (MainWindow.init 5 false) (.channelCreated "C" ⟨"Carl", "http://c"⟩))
      (.channelCreated "C" ⟨"Carl", "http://c"⟩)).m_timersHash.value "C" = 2 :=
  ⟨(second_created_overwrites
      (step (MainWindow.init 5 false) (.channelCreated "C" ⟨"Carl", "http://c"⟩)) "C"
      ⟨"Carl", "http://c"⟩ (by decide) (by decide) (by decide) (by decide)).2.1,
   (second_created_overwrites
      (step (MainWindow.init 5 false) (.channelCreated "C" ⟨"Carl", "http://c"⟩)) "C"
      ⟨"Carl", "http://c"⟩ (by decide) (by decide) (by decide) (by decide)).2.2.2.2.1⟩

/-- C6: in every state reached from the freshly constructed window by a sequence
of created, answered, answered-by-another, destroyed, timer-expiry, finished,
attachment-changed and close-all events, whatever their senders and arguments,
in which every "created" names an identifier that is a key of none of the three
hashes when it arrives, no identifier is a key of both `m_informerDialogsHash`
and `m_attachedDialogsHash`. -/
theorem free_and_pinned_keys_disjoint (popupTimeout : Int) (autoOpenUrl : Bool)
    (es : List Event) (hfresh : createdFresh (MainWindow.init popupTimeout autoOpenUrl) es)
    (callId : String) :
    ¬ ((run (MainWindow.init popupTimeout autoOpenUrl) es).m_informerDialogsHash.contains callId
        = true ∧
      (run (MainWindow.init popupTimeout autoOpenUrl) es).m_attachedDialogsHash.contains callId
        = true) :=
  run_preserves_disjoint es _ hfresh (init_disjoint popupTimeout autoOpenUrl) callId

/-- Witness of C6: two calls, one pinned and unpinned again, one timed out. -/
theorem free_and_pinned_keys_disjoint_witness :
    createdFresh (MainWindow.init 5 false)
      [.channelCreated "A" ⟨"Alice", "http://a"⟩, .dialogAttached 1 true,
       .channelCreated "B" ⟨"Bob", "http://b"⟩, .timerTimeout 2, .dialogAttached 1 false,
       .channelAnswered "A"] ∧
    ¬ ((run (MainWindow.init 5 false)
      [.channelCreated "A" ⟨"Alice", "http://a"⟩, .dialogAttached 1 true,
       .channelCreated "B" ⟨"Bob", "http://b"⟩, .timerTimeout 2, .dialogAttached 1 false,
       .channelAnswered "A"]).m_informerDialogsHash.contains "A" = true ∧
      (run (MainWindow.init 5 false)
      [.channelCreated "A" ⟨"Alice", "http://a"⟩, .dialogAttached 1 true,
       .channelCreated "B" ⟨"Bob", "http://b"⟩, .timerTimeout 2, .dialogAttached 1 false,
       .channelAnswered "A"]).m_attachedDialogsHash.contains "A" = true) :=
  ⟨by decide, free_and_pinned_keys_disjoint 5 false _ (by decide) "A"⟩

/-- Pinned calls in reachable states: in every state reached from the freshly
constructed window by events whose "created" events name untracked
identifiers, for every identifier that is a key of `m_attachedDialogsHash` and
of `m_timersHash`, the expiry of the timer registered under it changes nothing:
no dialog is closed or released, `m_informerDialogsHash` and
`m_attachedDialogsHash` are unchanged, and the identifier is still mapped to the
same dialog in `m_attachedDialogsHash`.  There the identifier is no key of
`m_informerDialogsHash` and the timer is held under no other key. -/
theorem reachable_timeout_spares_pinned_dialog (popupTimeout : Int) (autoOpenUrl : Bool)
    (es : List Event) (hfresh : createdFresh (MainWindow.init popupTimeout autoOpenUrl) es)
    (callId : String)
    (hpinned : (run (MainWindow.init popupTimeout autoOpenUrl)
      es).m_attachedDialogsHash.contains callId = true)
    (htimer : (run (MainWindow.init popupTimeout autoOpenUrl)
      es).m_timersHash.contains callId = true) :
    let w := run (MainWindow.init popupTimeout autoOpenUrl) es
    let w' := step w (.timerTimeout (w.m_timersHash.value callId))
    w'.dialogHeap = w.dialogHeap ∧
    w'.m_informerDialogsHash = w.m_informerDialogsHash ∧
    w'.m_attachedDialogsHash = w.m_attachedDialogsHash ∧
    w'.m_attachedDialogsHash.contains callId = true ∧
    w'.m_attachedDialogsHash.value callId = w.m_attachedDialogsHash.value callId := by
  intro w w'
  have hdis := run_preserves_disjoint es _ hfresh (init_disjoint popupTimeout autoOpenUrl) callId
  have hdist := run_preserves_timersDistinct es _ (init_timersDistinct popupTimeout autoOpenUrl)
  have hkey : w.m_timersHash.key (w.m_timersHash.value callId) = callId :=
    QHash.key_of_mem_of_nodup _ hdist.2 (QHash.mem_of_contains _ htimer)
  have hfree : w.m_informerDialogsHash.contains callId = false := by
    cases hc : w.m_informerDialogsHash.contains callId with
    | false => rfl
    | true => exact absurd ⟨hc, hpinned⟩ hdis
  have hsame : w' = w := by
    show w.timeout (w.m_timersHash.value callId) = w
    apply timeout_of_not_contains
    rw [hkey]; exact hfree
  rw [hsame]
  exact ⟨rfl, rfl, rfl, hpinned, rfl⟩

/-- Example of the reachable case: call "A" is created and pinned; its timer 1
then fires. -/
theorem reachable_timeout_spares_pinned_dialog_example :
    createdFresh (MainWindow.init 5 false)
      [.channelCreated "A" ⟨"Alice", "http://a"⟩, .dialogAttached 1 true] ∧
    (run (MainWindow.init 5 false)
      [.channelCreated "A" ⟨"Alice", "http://a"⟩,
       .dialogAttached 1 true]).m_attachedDialogsHash.contains "A" = true ∧
    (run (MainWindow.init 5 false)
      [.channelCreated "A" ⟨"Alice", "http://a"⟩,
       .dialogAttached 1 true]).m_timersHash.contains "A" = true ∧
    (let w := run (MainWindow.init 5 false)
      [.channelCreated "A" ⟨"Alice", "http://a"⟩, .dialogAttached 1 true]
     let w' := step w (.timerTimeout (w.m_timersHash.value "A"))
     w'.dialogHeap = w.dialogHeap ∧
     w'.m_informerDialogsHash = w.m_informerDialogsHash ∧
     w'.m_attachedDialogsHash = w.m_attachedDialogsHash ∧
     w'.m_attachedDialogsHash.contains "A" = true ∧
     w'.m_attachedDialogsHash.value "A" = w.m_attachedDialogsHash.value "A") :=
  ⟨by decide, by decide, by decide,
   reachable_timeout_spares_pinned_dialog 5 false
     [.channelCreated "A" ⟨"Alice", "http://a"⟩, .dialogAttached 1 true]
     (by decide) "A" (by decide) (by decide)⟩

/-- C7 (counterexample): on the freshly constructed window, call "A" is created
(dialog 1, timer 1) and pinned, and "created" arrives again for "A" (dialog 2,
timer 2).  Dialog 1 is then held under "A" in `m_attachedDialogsHash` and timer
2 is registered under "A" in `m_timersHash`, but "A" is a key of
`m_informerDialogsHash` as well.  The expiry of timer 2 closes and releases
dialog 2 and removes "A" from `m_informerDialogsHash`: that hash is not left
unchanged. -/
theorem expiry_changes_free_hash_of_pinned_identifier :
    (run (MainWindow.init 5 false)
      [.channelCreated "A" ⟨"Alice", "http://a"⟩, .dialogAttached 1 true,
       .channelCreated "A" ⟨"Alice", "http://a"⟩]).m_attachedDialogsHash.holds "A" 1 ∧
    (run (MainWindow.init 5 false)
      [.channelCreated "A" ⟨"Alice", "http://a"⟩, .dialogAttached 1 true,
       .channelCreated "A" ⟨"Alice", "http://a"⟩]).m_timersHash.holds "A" 2 ∧
    (run (MainWindow.init 5 false)
      [.channelCreated "A" ⟨"Alice", "http://a"⟩, .dialogAttached 1 true,
       .channelCreated "A" ⟨"Alice", "http://a"⟩]).m_informerDialogsHash.contains "A" = true ∧
    (run (MainWindow.init 5 false)
      [.channelCreated "A" ⟨"Alice", "http://a"⟩, .dialogAttached 1 true,
       .channelCreated "A" ⟨"Alice", "http://a"⟩,
       .timerTimeout 2]).m_informerDialogsHash.contains "A" = false ∧
    (run (MainWindow.init 5 false)
      [.channelCreated "A" ⟨"Alice", "http://a"⟩, .dialogAttached 1 true,
       .channelCreated "A" ⟨"Alice", "http://a"⟩,
       .timerTimeout 2]).m_informerDialogsHash
      ≠ (run (MainWindow.init 5 false)
        [.channelCreated "A" ⟨"Alice", "http://a"⟩, .dialogAttached 1 true,
         .channelCreated "A" ⟨"Alice", "http://a"⟩]).m_informerDialogsHash ∧
    ((run (MainWindow.init 5 false)
      [.channelCreated "A" ⟨"Alice", "http://a"⟩, .dialogAttached 1 true,
       .channelCreated "A" ⟨"Alice", "http://a"⟩,
       .timerTimeout 2]).dialogHeap 2).closeCalls = 1 ∧
    ((run (MainWindow.init 5 false)
      [.channelCreated "A" ⟨"Alice", "http://a"⟩, .dialogAttached 1 true,
       .channelCreated "A" ⟨"Alice", "http://a"⟩,
       .timerTimeout 2]).dialogHeap 2).deleteLaterCalls = 1 := by
  decide

/-- C7 (amended): in every state, for every identifier that is a key of
`m_attachedDialogsHash` and no key of `m_informerDialogsHash`, and every timer
registered under it in `m_timersHash`, the expiry of that timer changes nothing
at all: no dialog is closed or released, `m_informerDialogsHash` and
`m_attachedDialogsHash` are unchanged, and the identifier is still mapped to the
same dialog in `m_attachedDialogsHash`. -/
theorem expiry_spares_pinned_dialog (w : MainWindow) (callId : String) (timer : Nat)
    (hpinned : w.m_attachedDialogsHash.contains callId = true)
    (hfree : w.m_informerDialogsHash.contains callId = false)
    (htimer : w.m_timersHash.holds callId timer) :
    step w (.timerTimeout timer) = w ∧
    (step w (.timerTimeout timer)).dialogHeap = w.dialogHeap ∧
    (step w (.timerTimeout timer)).m_informerDialogsHash = w.m_informerDialogsHash ∧
    (step w (.timerTimeout timer)).m_attachedDialogsHash = w.m_attachedDialogsHash ∧
    (step w (.timerTimeout timer)).m_attachedDialogsHash.contains callId = true ∧
    (step w (.timerTimeout timer)).m_attachedDialogsHash.value callId
      = w.m_attachedDialogsHash.value callId := by
  have hsame : step w (.timerTimeout timer) = w := by
    show w.timeout timer = w
    apply timeout_of_not_contains
    rw [htimer.2.2]
    exact hfree
  rw [hsame]
  exact ⟨rfl, rfl, rfl, rfl, hpinned, rfl⟩

/-- Witness of C7 (amended): call "A" is created and pinned while call "B" stays
free; timer 1 of "A" then fires. -/
theorem expiry_spares_pinned_dialog_witness :
    (run (MainWindow.init 5 false)
      [.channelCreated "A" ⟨"Alice", "http://a"⟩, .channelCreated "B" ⟨"Bob", "http://b"⟩,
       .dialogAttached 1 true]).m_attachedDialogsHash.contains "A" = true ∧
    (run (MainWindow.init 5 false)
      [.channelCreated "A" ⟨"Alice", "http://a"⟩, .channelCreated "B" ⟨"Bob", "http://b"⟩,
       .dialogAttached 1 true]).m_informerDialogsHash.contains "A" = false ∧
    (run (MainWindow.init 5 false)
      [.channelCreated "A" ⟨"Alice", "http://a"⟩, .channelCreated "B" ⟨"Bob", "http://b"⟩,
       .dialogAttached 1 true]).m_timersHash.holds "A" 1 ∧
    step (run (MainWindow.init 5 false)
      [.channelCreated "A" ⟨"Alice", "http://a"⟩, .channelCreated "B" ⟨"Bob", "http://b"⟩,
       .dialogAttached 1 true]) (.timerTimeout 1)
      = run (MainWindow.init 5 false)
        [.channelCreated "A" ⟨"Alice", "http://a"⟩, .channelCreated "B" ⟨"Bob", "http://b"⟩,
         .dialogAttached 1 true] :=
  ⟨by decide, by decide, by decide,
   (expiry_spares_pinned_dialog
      (run (MainWindow.init 5 false)
        [.channelCreated "A" ⟨"Alice", "http://a"⟩, .channelCreated "B" ⟨"Bob", "http://b"⟩,
         .dialogAttached 1 true]) "A" 1 (by decide) (by decide) (by decide)).1⟩

/-- C8: for every identifier that is a key of `m_informerDialogsHash` and of
`m_timersHash`, both "answered" and "answered by another" restart the timer
registered under it: afterwards it is running and its remaining time equals
its interval, which is the interval it had before (the one it was started with
by `onChannelCreated`, see `onChannelCreated_interval`), whatever the visibility
of the dialog; the three hashes are unchanged. -/
theorem answered_restarts_timer (w : MainWindow) (callId calleeNumber calleeName : String)
    (hfree : w.m_informerDialogsHash.contains callId = true)
    (htimer : w.m_timersHash.contains callId = true) :
    (((step w (.channelAnswered callId)).timerHeap (w.m_timersHash.value callId)).remaining
        = (w.timerHeap (w.m_timersHash.value callId)).interval ∧
      ((step w (.channelAnswered callId)).timerHeap (w.m_timersHash.value callId)).interval
        = (w.timerHeap (w.m_timersHash.value callId)).interval ∧
      ((step w (.channelAnswered callId)).timerHeap (w.m_timersHash.value callId)).active
        = true ∧
      (step w (.channelAnswered callId)).m_informerDialogsHash = w.m_informerDialogsHash ∧
      (step w (.channelAnswered callId)).m_attachedDialogsHash = w.m_attachedDialogsHash ∧
      (step w (.channelAnswered callId)).m_timersHash = w.m_timersHash) ∧
    (((step w (.channelAnsweredAnother callId calleeNumber calleeName)).timerHeap
          (w.m_timersHash.value callId)).remaining
        = (w.timerHeap (w.m_timersHash.value callId)).interval ∧
      ((step w (.channelAnsweredAnother callId calleeNumber calleeName)).timerHeap
          (w.m_timersHash.value callId)).interval
        = (w.timerHeap (w.m_timersHash.value callId)).interval ∧
      ((step w (.channelAnsweredAnother callId calleeNumber calleeName)).timerHeap
          (w.m_timersHash.value callId)).active = true ∧
      (step w (.channelAnsweredAnother callId calleeNumber calleeName)).m_informerDialogsHash
        = w.m_informerDialogsHash ∧
      (step w (.channelAnsweredAnother callId calleeNumber calleeName)).m_attachedDialogsHash
        = w.m_attachedDialogsHash ∧
      (step w (.channelAnsweredAnother callId calleeNumber calleeName)).m_timersHash
        = w.m_timersHash) := by
  have h1 := onChannelAnswered_timerHeap w callId hfree htimer
  have h2 := onChannelAnsweredAnother_timerHeap w callId calleeNumber calleeName hfree htimer
  refine ⟨⟨?_, ?_, ?_, ?_, ?_, ?_⟩, ⟨?_, ?_, ?_, ?_, ?_, ?_⟩⟩
  · show ((w.onChannelAnswered callId).timerHeap _).remaining = _
    rw [h1, Function.update_same]; rfl
  · show ((w.onChannelAnswered callId).timerHeap _).interval = _
    rw [h1, Function.update_same]; rfl
  · show ((w.onChannelAnswered callId).timerHeap _).active = _
    rw [h1, Function.update_same]; rfl
  · exact onChannelAnswered_free w callId
  · exact onChannelAnswered_pinned w callId
  · exact onChannelAnswered_timers w callId
  · show ((w.onChannelAnsweredAnother callId calleeNumber calleeName).timerHeap _).remaining = _
    rw [h2, Function.update_same]; rfl
  · show ((w.onChannelAnsweredAnother callId calleeNumber calleeName).timerHeap _).interval = _
    rw [h2, Function.update_same]; rfl
  · show ((w.onChannelAnsweredAnother callId calleeNumber calleeName).timerHeap _).active = _
    rw [h2, Function.update_same]; rfl
  · exact onChannelAnsweredAnother_free w callId calleeNumber calleeName
  · exact onChannelAnsweredAnother_pinned w callId calleeNumber calleeName
  · exact onChannelAnsweredAnother_timers w callId calleeNumber calleeName

/-- Witness of C8: call "A" is created with a timeout of 5 seconds and hidden by
nothing; "answered" puts the remaining time of its timer back to 5000 ms. -/
theorem answered_restarts_timer_witness :
    (step (MainWindow.init 5 false)
      (.channelCreated "A" ⟨"Alice", "http://a"⟩)).m_informerDialogsHash.contains "A" = true ∧
    (step (MainWindow.init 5 false)
      (.channelCreated "A" ⟨"Alice", "http://a"⟩)).m_timersHash.contains "A" = true ∧
    ((step (step (MainWindow.init 5 false) (.channelCreated "A" ⟨"Alice", "http://a"⟩))
        (.channelAnswered "A")).timerHeap
        ((step (MainWindow.init 5 false)
          (.channelCreated "A" ⟨"Alice", "http://a"⟩)).m_timersHash.value "A")).remaining
      = ((step (MainWindow.init 5 false) (.channelCreated "A" ⟨"Alice", "http://a"⟩)).timerHeap
        ((step (MainWindow.init 5 false)
          (.channelCreated "A" ⟨"Alice", "http://a"⟩)).m_timersHash.value "A")).interval :=
  ⟨by decide, by decide,
   (answered_restarts_timer
      (step (MainWindow.init 5 false) (.channelCreated "A" ⟨"Alice", "http://a"⟩))
      "A" "101" "Carol" (by decide) (by decide)).1.1⟩

/-- C9: let the identifier be a key of `m_informerDialogsHash`, registered to
dialog `d`.  After "destroyed" it is a key of neither `m_informerDialogsHash` nor
`m_timersHash`; `deleteLater()` has been called once more on `d`, and `close()`
once more exactly when `d` was shown and not attached (and not at all
otherwise); if a timer was registered under the identifier it is stopped and
`deleteLater()` has been called once more on it, otherwise no timer is touched;
`m_attachedDialogsHash` is unchanged, the entries of every other identifier in
`m_informerDialogsHash` and `m_timersHash` are unchanged, and so are every other
dialog and every other timer. -/
theorem destroyed_releases_free_dialog_and_timer (w : MainWindow) (callId : String)
    (hfree : w.m_informerDialogsHash.contains callId = true) :
    let d := w.m_informerDialogsHash.value callId
    let t := w.m_timersHash.value callId
    let w' := step w (.channelDestroyed callId)
    w'.m_informerDialogsHash.contains callId = false ∧
    w'.m_timersHash.contains callId = false ∧
    (w'.dialogHeap d).deleteLaterCalls = (w.dialogHeap d).deleteLaterCalls + 1 ∧
    (w'.dialogHeap d).closeCalls
      = (w.dialogHeap d).closeCalls
        + (if (w.dialogHeap d).visible = true ∧ (w.dialogHeap d).attached = false then 1 else 0) ∧
    (w'.dialogHeap d).visible
      = ((w.dialogHeap d).visible && (w.dialogHeap d).attached) ∧
    (w.m_timersHash.contains callId = true →
      (w'.timerHeap t).active = false ∧
      (w'.timerHeap t).deleteLaterCalls = (w.timerHeap t).deleteLaterCalls + 1 ∧
      ∀ q, q ≠ t → w'.timerHeap q = w.timerHeap q) ∧
    (w.m_timersHash.contains callId = false → w'.timerHeap = w.timerHeap) ∧
    w'.m_attachedDialogsHash = w.m_attachedDialogsHash ∧
    (∀ k, k ≠ callId →
      w'.m_informerDialogsHash.contains k = w.m_informerDialogsHash.contains k ∧
      w'.m_informerDialogsHash.value k = w.m_informerDialogsHash.value k ∧
      w'.m_timersHash.contains k = w.m_timersHash.contains k ∧
      w'.m_timersHash.value k = w.m_timersHash.value k) ∧
    (∀ p, p ≠ d → w'.dialogHeap p = w.dialogHeap p) := by
  intro d t w'
  have hF : w'.m_informerDialogsHash = w.m_informerDialogsHash.remove callId :=
    onChannelDestroyed_free w callId
  have hT : w'.m_timersHash = w.m_timersHash.remove callId := by
    show (w.onChannelDestroyed callId).m_timersHash = _
    rw [onChannelDestroyed_timers, hfree, if_pos rfl]
  have hD := onChannelDestroyed_dialogHeap w callId hfree
  have hH := onChannelDestroyed_timerHeap w callId hfree
  have hD' : w'.dialogHeap d
      = (if (w.dialogHeap d).visible && !(w.dialogHeap d).attached
         then (w.dialogHeap d).close else w.dialogHeap d).deleteLater := by
    show (w.onChannelDestroyed callId).dialogHeap d = _
    rw [hD, Function.update_same]
  refine ⟨?_, ?_, ?_, ?_, ?_, ?_, ?_, ?_, ?_, ?_⟩
  · rw [hF]; exact QHash.contains_remove_self _ _
  · rw [hT]; exact QHash.contains_remove_self _ _
  · rw [hD']
    split <;> rfl
  · rw [hD']
    cases hv : (w.dialogHeap d).visible <;> cases ha : (w.dialogHeap d).attached <;>
      simp [InformerDialog.deleteLater, InformerDialog.close]
  · rw [hD']
    cases hv : (w.dialogHeap d).visible <;> cases ha : (w.dialogHeap d).attached <;>
      simp [InformerDialog.deleteLater, InformerDialog.close, hv]
  · intro ht
    have hH' : w'.timerHeap = Function.update w.timerHeap t (w.timerHeap t).stop.deleteLater := by
      show (w.onChannelDestroyed callId).timerHeap = _
      rw [hH, ht, if_pos rfl]
    refine ⟨?_, ?_, ?_⟩
    · rw [hH', Function.update_same]; rfl
    · rw [hH', Function.update_same]; rfl
    · intro q hq
      rw [hH', Function.update_noteq hq]
  · intro ht
    show (w.onChannelDestroyed callId).timerHeap = _
    rw [hH, ht]; rfl
  · exact onChannelDestroyed_pinned w callId
  · intro k hk
    rw [hF, hT]
    refine ⟨?_, QHash.value_remove_of_ne _ hk, ?_, QHash.value_remove_of_ne _ hk⟩
    · rw [QHash.contains_remove, bne_iff_ne.mpr hk, Bool.and_true]
    · rw [QHash.contains_remove, bne_iff_ne.mpr hk, Bool.and_true]
  · intro p hp
    show (w.onChannelDestroyed callId).dialogHeap p = _
    rw [hD, Function.update_noteq hp]

/-- Witness of C9: call "A" was just created, its dialog is shown. -/
theorem destroyed_releases_free_dialog_and_timer_witness :
    (step (MainWindow.init 5 false)
      (.channelCreated "A" ⟨"Alice", "http://a"⟩)).m_informerDialogsHash.contains "A" = true ∧
    (let w := step (MainWindow.init 5 false) (.channelCreated "A" ⟨"Alice", "http://a"⟩)
     let d := w.m_informerDialogsHash.value "A"
     let t := w.m_timersHash.value "A"
     let w' := step w (.channelDestroyed "A")
     w'.m_informerDialogsHash.contains "A" = false ∧
     w'.m_timersHash.contains "A" = false ∧
     (w'.dialogHeap d).deleteLaterCalls = (w.dialogHeap d).deleteLaterCalls + 1 ∧
     (w'.dialogHeap d).closeCalls
       = (w.dialogHeap d).closeCalls
         + (if (w.dialogHeap d).visible = true ∧ (w.dialogHeap d).attached = false then 1 else 0) ∧
     (w'.dialogHeap d).visible
       = ((w.dialogHeap d).visible && (w.dialogHeap d).attached) ∧
     (w.m_timersHash.contains "A" = true →
       (w'.timerHeap t).active = false ∧
       (w'.timerHeap t).deleteLaterCalls = (w.timerHeap t).deleteLaterCalls + 1 ∧
       ∀ q, q ≠ t → w'.timerHeap q = w.timerHeap q) ∧
     (w.m_timersHash.contains "A" = false → w'.timerHeap = w.timerHeap) ∧
     w'.m_attachedDialogsHash = w.m_attachedDialogsHash ∧
     (∀ k, k ≠ "A" →
       w'.m_informerDialogsHash.contains k = w.m_informerDialogsHash.contains k ∧
       w'.m_informerDialogsHash.value k = w.m_informerDialogsHash.value k ∧
       w'.m_timersHash.contains k = w.m_timersHash.contains k ∧
       w'.m_timersHash.value k = w.m_timersHash.value k) ∧
     (∀ p, p ≠ d → w'.dialogHeap p = w.dialogHeap p)) :=
  ⟨by decide,
   destroyed_releases_free_dialog_and_timer
     (step (MainWindow.init 5 false) (.channelCreated "A" ⟨"Alice", "http://a"⟩)) "A"
     (by decide)⟩

/-- C10: if dialog `d` is registered under `callId` in `m_informerDialogsHash`, then
`dialogAttached(true)` from `d` leaves `callId` mapped to the same `d` in
`m_attachedDialogsHash` and no longer a key of `m_informerDialogsHash`; if `d` is
registered under `callId` in `m_attachedDialogsHash`, then `dialogAttached(false)`
from `d` leaves `callId` mapped to the same `d` in `m_informerDialogsHash` and no
longer a key of `m_attachedDialogsHash`.  In both directions `m_timersHash` and
every timer object are unchanged, and so is the entry of every other identifier
in both dialog hashes. -/
theorem attachment_change_moves_entry (w : MainWindow) (callId : String) (d : Nat) :
    (w.m_informerDialogsHash.holds callId d →
      (step w (.dialogAttached d true)).m_attachedDialogsHash.contains callId = true ∧
      (step w (.dialogAttached d true)).m_attachedDialogsHash.value callId = d ∧
      (step w (.dialogAttached d true)).m_informerDialogsHash.contains callId = false ∧
      (step w (.dialogAttached d true)).m_timersHash = w.m_timersHash ∧
      (step w (.dialogAttached d true)).timerHeap = w.timerHeap ∧
      ∀ k, k ≠ callId →
        (step w (.dialogAttached d true)).m_informerDialogsHash.contains k
          = w.m_informerDialogsHash.contains k ∧
        (step w (.dialogAttached d true)).m_informerDialogsHash.value k
          = w.m_informerDialogsHash.value k ∧
        (step w (.dialogAttached d true)).m_attachedDialogsHash.contains k
          = w.m_attachedDialogsHash.contains k ∧
        (step w (.dialogAttached d true)).m_attachedDialogsHash.value k
          = w.m_attachedDialogsHash.value k) ∧
    (w.m_attachedDialogsHash.holds callId d →
      (step w (.dialogAttached d false)).m_informerDialogsHash.contains callId = true ∧
      (step w (.dialogAttached d false)).m_informerDialogsHash.value callId = d ∧
      (step w (.dialogAttached d false)).m_attachedDialogsHash.contains callId = false ∧
      (step w (.dialogAttached d false)).m_timersHash = w.m_timersHash ∧
      (step w (.dialogAttached d false)).timerHeap = w.timerHeap ∧
      ∀ k, k ≠ callId →
        (step w (.dialogAttached d false)).m_informerDialogsHash.contains k
          = w.m_informerDialogsHash.contains k ∧
        (step w (.dialogAttached d false)).m_informerDialogsHash.value k
          = w.m_informerDialogsHash.value k ∧
        (step w (.dialogAttached d false)).m_attachedDialogsHash.contains k
          = w.m_attachedDialogsHash.contains k ∧
        (step w (.dialogAttached d false)).m_attachedDialogsHash.value k
          = w.m_attachedDialogsHash.value k) := by
  constructor
  · rintro ⟨_, _, hkey⟩
    have hF : (step w (.dialogAttached d true)).m_informerDialogsHash
        = w.m_informerDialogsHash.remove callId := by
      simp only [step, processDialogAttached_free, updDialog_free, if_true, hkey]
    have hP : (step w (.dialogAttached d true)).m_attachedDialogsHash
        = w.m_attachedDialogsHash.insert callId d := by
      simp only [step, processDialogAttached_pinned, updDialog_free, updDialog_pinned, if_true,
        hkey]
    rw [hF, hP]
    refine ⟨QHash.contains_insert_self _ _ _, QHash.value_insert_self _ _ _,
      QHash.contains_remove_self _ _, ?_, ?_, ?_⟩
    · simp only [step, processDialogAttached_timers, updDialog_timers]
    · simp only [step, processDialogAttached_timerHeap, updDialog_timerHeap]
    · intro k hk
      refine ⟨?_, QHash.value_remove_of_ne _ hk, ?_, QHash.value_insert_of_ne _ _ hk⟩
      · rw [QHash.contains_remove, bne_iff_ne.mpr hk, Bool.and_true]
      · rw [QHash.contains_insert, beq_eq_false_iff_ne.mpr hk, Bool.false_or]
  · rintro ⟨_, _, hkey⟩
    have hF : (step w (.dialogAttached d false)).m_informerDialogsHash
        = w.m_informerDialogsHash.insert callId d := by
      simp only [step, processDialogAttached_free, updDialog_free, updDialog_pinned,
        Bool.false_eq_true, if_false, hkey]
    have hP : (step w (.dialogAttached d false)).m_attachedDialogsHash
        = w.m_attachedDialogsHash.remove callId := by
      simp only [step, processDialogAttached_pinned, updDialog_pinned, Bool.false_eq_true,
        if_false, hkey]
    rw [hF, hP]
    refine ⟨QHash.contains_insert_self _ _ _, QHash.value_insert_self _ _ _,
      QHash.contains_remove_self _ _, ?_, ?_, ?_⟩
    · simp only [step, processDialogAttached_timers, updDialog_timers]
    · simp only [step, processDialogAttached_timerHeap, updDialog_timerHeap]
    · intro k hk
      refine ⟨?_, QHash.value_insert_of_ne _ _ hk, ?_, QHash.value_remove_of_ne _ hk⟩
      · rw [QHash.contains_insert, beq_eq_false_iff_ne.mpr hk, Bool.false_or]
      · rw [QHash.contains_remove, bne_iff_ne.mpr hk, Bool.and_true]

/-- Witness of C10: dialog 1 of call "A" is pinned, then unpinned, while call "B"
stays where it is. -/
theorem attachment_change_moves_entry_witness :
    (run (MainWindow.init 5 false)
      [.channelCreated "A" ⟨"Alice", "http://a"⟩,
       .channelCreated "B" ⟨"Bob", "http://b"⟩]).m_informerDialogsHash.holds "A" 1 ∧
    (step (run (MainWindow.init 5 false)
      [.channelCreated "A" ⟨"Alice", "http://a"⟩, .channelCreated "B" ⟨"Bob", "http://b"⟩])
      (.dialogAttached 1 true)).m_attachedDialogsHash.value "A" = 1 ∧
    (run (MainWindow.init 5 false)
      [.channelCreated "A" ⟨"Alice", "http://a"⟩, .channelCreated "B" ⟨"Bob", "http://b"⟩,
       .dialogAttached 1 true]).m_attachedDialogsHash.holds "A" 1 ∧
    (step (run (MainWindow.init 5 false)
      [.channelCreated "A" ⟨"Alice", "http://a"⟩, .channelCreated "B" ⟨"Bob", "http://b"⟩,
       .dialogAttached 1 true])
      (.dialogAttached 1 false)).m_informerDialogsHash.value "A" = 1 :=
  ⟨by decide,
   ((attachment_change_moves_entry
      (run (MainWindow.init 5 false)
        [.channelCreated "A" ⟨"Alice", "http://a"⟩, .channelCreated "B" ⟨"Bob", "http://b"⟩])
      "A" 1).1 (by decide)).2.1,
   by decide,
   ((attachment_change_moves_entry
      (run (MainWindow.init 5 false)
        [.channelCreated "A" ⟨"Alice", "http://a"⟩, .channelCreated "B" ⟨"Bob", "http://b"⟩,
         .dialogAttached 1 true])
      "A" 1).2 (by decide)).2.1⟩


/-! ## Signals of a registered dialog: `finished` -/

theorem contains_iff_mem (l : List Nat) (a : Nat) : l.contains a = true ↔ a ∈ l := by
  simp

theorem QHash.value_mem_values (h : QHash) {k : String} (hk : h.contains k = true) :
    h.value k ∈ h.values :=
  List.mem_map_of_mem Prod.snd (QHash.mem_of_contains h hk)

theorem processDialogFinished_timerHeap (w : MainWindow) (informerDialog : Nat) :
    (w.processDialogFinished informerDialog).timerHeap = w.timerHeap := by
  unfold processDialogFinished
  split
  · rfl
  · split <;> rfl

theorem processDialogFinished_dialogHeap (w : MainWindow) (informerDialog : Nat) :
    (w.processDialogFinished informerDialog).dialogHeap = w.dialogHeap := by
  unfold processDialogFinished
  split
  · rfl
  · split <;> rfl

/-- C11: if dialog `d` is registered under `callId` in `m_informerDialogsHash`, its
`finished` signal removes `callId` from that hash and leaves every other entry
of it and all of `m_attachedDialogsHash` unchanged; if `d` is registered under
`callId` in `m_attachedDialogsHash` and not held by `m_informerDialogsHash`, the
signal removes `callId` from `m_attachedDialogsHash` and leaves every other
entry of it and all of `m_informerDialogsHash` unchanged.  In both cases
`m_timersHash` and every timer object, the one of `callId` included, are
unchanged. -/
theorem finished_removes_only_its_entry (w : MainWindow) (callId : String) (d : Nat) :
    (w.m_informerDialogsHash.holds callId d →
      (step w (.dialogFinished d)).m_informerDialogsHash = w.m_informerDialogsHash.remove callId ∧
      (step w (.dialogFinished d)).m_informerDialogsHash.contains callId = false ∧
      (∀ k, k ≠ callId →
        (step w (.dialogFinished d)).m_informerDialogsHash.contains k
          = w.m_informerDialogsHash.contains k ∧
        (step w (.dialogFinished d)).m_informerDialogsHash.value k
          = w.m_informerDialogsHash.value k) ∧
      (step w (.dialogFinished d)).m_attachedDialogsHash = w.m_attachedDialogsHash ∧
      (step w (.dialogFinished d)).m_timersHash = w.m_timersHash ∧
      (step w (.dialogFinished d)).timerHeap = w.timerHeap) ∧
    (w.m_attachedDialogsHash.holds callId d → d ∉ w.m_informerDialogsHash.values →
      (step w (.dialogFinished d)).m_attachedDialogsHash = w.m_attachedDialogsHash.remove callId ∧
      (step w (.dialogFinished d)).m_attachedDialogsHash.contains callId = false ∧
      (∀ k, k ≠ callId →
        (step w (.dialogFinished d)).m_attachedDialogsHash.contains k
          = w.m_attachedDialogsHash.contains k ∧
        (step w (.dialogFinished d)).m_attachedDialogsHash.value k
          = w.m_attachedDialogsHash.value k) ∧
      (step w (.dialogFinished d)).m_informerDialogsHash = w.m_informerDialogsHash ∧
      (step w (.dialogFinished d)).m_timersHash = w.m_timersHash ∧
      (step w (.dialogFinished d)).timerHeap = w.timerHeap) := by
  constructor
  · rintro ⟨hc, hv, hkey⟩
    have hmem : w.m_informerDialogsHash.values.contains d = true := by
      rw [contains_iff_mem, ← hv]
      exact QHash.value_mem_values _ hc
    have hF : (step w (.dialogFinished d)).m_informerDialogsHash
        = w.m_informerDialogsHash.remove callId := by
      simp only [step, processDialogFinished_free, hmem, if_true, hkey]
    have hP : (step w (.dialogFinished d)).m_attachedDialogsHash = w.m_attachedDialogsHash := by
      simp only [step, processDialogFinished_pinned, hmem, if_true]
    refine ⟨hF, ?_, ?_, hP, processDialogFinished_timers w d, processDialogFinished_timerHeap w d⟩
    · rw [hF]; exact QHash.contains_remove_self _ _
    · intro k hk
      rw [hF]
      refine ⟨?_, QHash.value_remove_of_ne _ hk⟩
      rw [QHash.contains_remove, bne_iff_ne.mpr hk, Bool.and_true]
  · rintro ⟨hc, hv, hkey⟩ hnot
    have hnmem : w.m_informerDialogsHash.values.contains d = false := by
      cases hb : w.m_informerDialogsHash.values.contains d with
      | false => rfl
      | true => exact absurd ((contains_iff_mem _ _).mp hb) hnot
    have hmem : w.m_attachedDialogsHash.values.contains d = true := by
      rw [contains_iff_mem, ← hv]
      exact QHash.value_mem_values _ hc
    have hF : (step w (.dialogFinished d)).m_informerDialogsHash = w.m_informerDialogsHash := by
      simp only [step, processDialogFinished_free, hnmem, Bool.false_eq_true, if_false]
    have hP : (step w (.dialogFinished d)).m_attachedDialogsHash
        = w.m_attachedDialogsHash.remove callId := by
      simp only [step, processDialogFinished_pinned, hnmem, Bool.false_eq_true, if_false, hmem,
        if_true, hkey]
    refine ⟨hP, ?_, ?_, hF, processDialogFinished_timers w d, processDialogFinished_timerHeap w d⟩
    · rw [hP]; exact QHash.contains_remove_self _ _
    · intro k hk
      rw [hP]
      refine ⟨?_, QHash.value_remove_of_ne _ hk⟩
      rw [QHash.contains_remove, bne_iff_ne.mpr hk, Bool.and_true]

/-- Witness of C11: dialog 1 of call "A" finishes while free, dialog 2 of call "B"
finishes while pinned. -/
theorem finished_removes_only_its_entry_witness :
    (run (MainWindow.init 5 false)
      [.channelCreated "A" ⟨"Alice", "http://a"⟩, .channelCreated "B" ⟨"Bob", "http://b"⟩,
       .dialogAttached 2 true]).m_informerDialogsHash.holds "A" 1 ∧
    (step (run (MainWindow.init 5 false)
      [.channelCreated "A" ⟨"Alice", "http://a"⟩, .channelCreated "B" ⟨"Bob", "http://b"⟩,
       .dialogAttached 2 true]) (.dialogFinished 1)).m_informerDialogsHash.contains "A"
      = false ∧
    (run (MainWindow.init 5 false)
      [.channelCreated "A" ⟨"Alice", "http://a"⟩, .channelCreated "B" ⟨"Bob", "http://b"⟩,
       .dialogAttached 2 true]).m_attachedDialogsHash.holds "B" 2 ∧
    2 ∉ (run (MainWindow.init 5 false)
      [.channelCreated "A" ⟨"Alice", "http://a"⟩, .channelCreated "B" ⟨"Bob", "http://b"⟩,
       .dialogAttached 2 true]).m_informerDialogsHash.values ∧
    (step (run (MainWindow.init 5 false)
      [.channelCreated "A" ⟨"Alice", "http://a"⟩, .channelCreated "B" ⟨"Bob", "http://b"⟩,
       .dialogAttached 2 true]) (.dialogFinished 2)).m_attachedDialogsHash.contains "B"
      = false :=
  ⟨by decide,
   ((finished_removes_only_its_entry
      (run (MainWindow.init 5 false)
        [.channelCreated "A" ⟨"Alice", "http://a"⟩, .channelCreated "B" ⟨"Bob", "http://b"⟩,
         .dialogAttached 2 true]) "A" 1).1 (by decide)).2.1,
   by decide, by decide,
   ((finished_removes_only_its_entry
      (run (MainWindow.init 5 false)
        [.channelCreated "A" ⟨"Alice", "http://a"⟩, .channelCreated "B" ⟨"Bob", "http://b"⟩,
         .dialogAttached 2 true]) "B" 2).2 (by decide) (by decide)).2.1⟩

/-! ## Close all popups -/

theorem closeAndDelete_dialogHeap (w : MainWindow) (p : Nat) :
    (w.closeAndDelete p).dialogHeap
      = Function.update w.dialogHeap p (w.dialogHeap p).close.deleteLater := by
  simp [closeAndDelete, updDialog, Function.update_same, Function.update_idem]

theorem foldl_closeAndDelete_dialogHeap (l : List Nat) (w : MainWindow) (p : Nat) :
    (l.foldl closeAndDelete w).dialogHeap p
      = (fun d : InformerDialog => d.close.deleteLater)^[l.count p] (w.dialogHeap p) := by
  induction l generalizing w with
  | nil => rfl
  | cons a l ih =>
    rw [List.foldl_cons, ih, closeAndDelete_dialogHeap]
    by_cases h : a = p
    · subst h
      rw [Function.update_same, List.count_cons_self, Function.iterate_succ_apply]
    · have h' : p ≠ a := fun e => h e.symm
      rw [Function.update_noteq h', List.count_cons_of_ne h']

theorem foldl_closeAndDelete_timerHeap (l : List Nat) (w : MainWindow) :
    (l.foldl closeAndDelete w).timerHeap = w.timerHeap := by
  induction l generalizing w with
  | nil => rfl
  | cons p l ih => simp only [List.foldl_cons, ih]; rfl

theorem iterate_close_deleteLater (n : Nat) (d : InformerDialog) :
    ((fun d : InformerDialog => d.close.deleteLater)^[n] d).closeCalls = d.closeCalls + n ∧
    ((fun d : InformerDialog => d.close.deleteLater)^[n] d).deleteLaterCalls
      = d.deleteLaterCalls + n ∧
    (0 < n → ((fun d : InformerDialog => d.close.deleteLater)^[n] d).visible = false) := by
  induction n with
  | zero => exact ⟨rfl, rfl, fun h => absurd h (Nat.lt_irrefl 0)⟩
  | succ n ih =>
    rw [Function.iterate_succ_apply']
    obtain ⟨h1, h2, _⟩ := ih
    refine ⟨?_, ?_, fun _ => rfl⟩
    · show _ + 1 = _
      rw [h1]; rfl
    · show ((fun d : InformerDialog => d.close.deleteLater)^[n] d).deleteLaterCalls + 1 = _
      rw [h2]; rfl

theorem closeAllPopups_dialogHeap (w : MainWindow) (p : Nat) :
    w.closeAllPopups.dialogHeap p
      = (fun d : InformerDialog => d.close.deleteLater)^[
          (w.m_informerDialogsHash.values ++ w.m_attachedDialogsHash.values).count p]
          (w.dialogHeap p) := by
  simp only [closeAllPopups, foldl_closeAndDelete_dialogHeap, foldl_closeAndDelete_pinned,
    List.count_append]
  rw [Nat.add_comm, Function.iterate_add_apply]

theorem closeAllPopups_timerHeap (w : MainWindow) :
    w.closeAllPopups.timerHeap = w.timerHeap := by
  simp only [closeAllPopups, foldl_closeAndDelete_timerHeap]

/-- C12: in every state, after "close all popups" `m_informerDialogsHash` and
`m_attachedDialogsHash` are empty; on every dialog, `close()` and `deleteLater()`
have been called once for each time the dialog was held by one of the two
hashes, so every dialog that was registered is closed (no longer shown) and
released and every other dialog is untouched; `m_timersHash` and every timer
object are unchanged. -/
theorem close_all_closes_and_releases_registered_dialogs (w : MainWindow) :
    (step w .closeAllPopups).m_informerDialogsHash = QHash.empty ∧
    (step w .closeAllPopups).m_attachedDialogsHash = QHash.empty ∧
    (step w .closeAllPopups).m_timersHash = w.m_timersHash ∧
    (step w .closeAllPopups).timerHeap = w.timerHeap ∧
    (∀ p, ((step w .closeAllPopups).dialogHeap p).closeCalls
        = (w.dialogHeap p).closeCalls
          + (w.m_informerDialogsHash.values ++ w.m_attachedDialogsHash.values).count p ∧
      ((step w .closeAllPopups).dialogHeap p).deleteLaterCalls
        = (w.dialogHeap p).deleteLaterCalls
          + (w.m_informerDialogsHash.values ++ w.m_attachedDialogsHash.values).count p) ∧
    (∀ p, p ∈ w.m_informerDialogsHash.values ∨ p ∈ w.m_attachedDialogsHash.values →
      ((step w .closeAllPopups).dialogHeap p).visible = false ∧
      (w.dialogHeap p).closeCalls < ((step w .closeAllPopups).dialogHeap p).closeCalls ∧
      (w.dialogHeap p).deleteLaterCalls
        < ((step w .closeAllPopups).dialogHeap p).deleteLaterCalls) ∧
    (∀ p, p ∉ w.m_informerDialogsHash.values → p ∉ w.m_attachedDialogsHash.values →
      (step w .closeAllPopups).dialogHeap p = w.dialogHeap p) := by
  refine ⟨closeAllPopups_free w, closeAllPopups_pinned w, closeAllPopups_timers w,
    closeAllPopups_timerHeap w, ?_, ?_, ?_⟩
  · intro p
    show (w.closeAllPopups.dialogHeap p).closeCalls = _ ∧
      (w.closeAllPopups.dialogHeap p).deleteLaterCalls = _
    rw [closeAllPopups_dialogHeap]
    exact ⟨(iterate_close_deleteLater _ _).1, (iterate_close_deleteLater _ _).2.1⟩
  · intro p hp
    have hpos : 0 < (w.m_informerDialogsHash.values ++ w.m_attachedDialogsHash.values).count p :=
      List.count_pos_iff.mpr (List.mem_append.mpr hp)
    show (w.closeAllPopups.dialogHeap p).visible = false ∧
      _ < (w.closeAllPopups.dialogHeap p).closeCalls ∧
      _ < (w.closeAllPopups.dialogHeap p).deleteLaterCalls
    rw [closeAllPopups_dialogHeap]
    obtain ⟨h1, h2, h3⟩ := iterate_close_deleteLater
      ((w.m_informerDialogsHash.values ++ w.m_attachedDialogsHash.values).count p)
      (w.dialogHeap p)
    refine ⟨h3 hpos, ?_, ?_⟩
    · rw [h1]; omega
    · rw [h2]; omega
  · intro p hf hp
    have hzero : (w.m_informerDialogsHash.values ++ w.m_attachedDialogsHash.values).count p = 0 :=
      List.count_eq_zero_of_not_mem (fun h => (List.mem_append.mp h).elim hf hp)
    show w.closeAllPopups.dialogHeap p = _
    rw [closeAllPopups_dialogHeap, hzero]
    rfl

/-- Witness of C12: call "A" is free and call "B" is pinned when everything is
closed; dialog 2 is then hidden and released. -/
theorem close_all_closes_and_releases_registered_dialogs_witness :
    (2 ∈ (run (MainWindow.init 5 false)
      [.channelCreated "A" ⟨"Alice", "http://a"⟩, .channelCreated "B" ⟨"Bob", "http://b"⟩,
       .dialogAttached 2 true]).m_informerDialogsHash.values ∨
     2 ∈ (run (MainWindow.init 5 false)
      [.channelCreated "A" ⟨"Alice", "http://a"⟩, .channelCreated "B" ⟨"Bob", "http://b"⟩,
       .dialogAttached 2 true]).m_attachedDialogsHash.values) ∧
    ((step (run (MainWindow.init 5 false)
      [.channelCreated "A" ⟨"Alice", "http://a"⟩, .channelCreated "B" ⟨"Bob", "http://b"⟩,
       .dialogAttached 2 true]) .closeAllPopups).dialogHeap 2).visible = false :=
  ⟨by decide,
   ((close_all_closes_and_releases_registered_dialogs
      (run (MainWindow.init 5 false)
        [.channelCreated "A" ⟨"Alice", "http://a"⟩, .channelCreated "B" ⟨"Bob", "http://b"⟩,
         .dialogAttached 2 true])).2.2.2.2.2.1 2 (by decide)).1⟩

/-! ## Senders that no hash holds -/

theorem QHash.key_of_not_mem (h : QHash) {v : Nat} (hv : v ∉ h.values) : h.key v = "" := by
  have hnone : h.entries.find? (fun e => e.2 == v) = none := by
    rw [List.find?_eq_none]
    intro e he hev
    exact hv (List.mem_map.mpr ⟨e, he, by simpa using hev⟩)
  simp only [QHash.key, hnone]

/-- What `timeout` gets right: the expiry of a timer that `m_timersHash` does not
hold changes nothing as long as the empty string is no key of
`m_informerDialogsHash`. -/
theorem timeout_unregistered_of_no_empty_key (w : MainWindow) (timer : Nat)
    (ht : timer ∉ w.m_timersHash.values)
    (he : w.m_informerDialogsHash.contains "" = false) : w.timeout timer = w := by
  apply timeout_of_not_contains
  rw [QHash.key_of_not_mem _ ht]
  exact he

/-- What `processDialogAttached` does with a sender it does not know: the dialog
is filed under the empty string. -/
theorem processDialogAttached_unregistered (w : MainWindow) (d : Nat) :
    (d ∉ w.m_informerDialogsHash.values →
      (w.processDialogAttached d true).m_attachedDialogsHash
        = w.m_attachedDialogsHash.insert "" d) ∧
    (d ∉ w.m_attachedDialogsHash.values →
      (w.processDialogAttached d false).m_informerDialogsHash
        = w.m_informerDialogsHash.insert "" d) := by
  constructor
  · intro h
    rw [processDialogAttached_pinned, if_pos rfl, QHash.key_of_not_mem _ h]
  · intro h
    rw [processDialogAttached_free, QHash.key_of_not_mem _ h]
    rfl

/-- C13 (the code at the failing input): on the freshly constructed window, calls
"" and "C" are created and "created" arrives a second time for "C", which
replaces timer 2 of "C" by timer 3.  Timer 2 is then held by no key of
`m_timersHash`, and call "" is registered to dialog 1, shown.  When timer 2
fires, `timeout` looks it up, gets the empty string back, and closes, removes
and releases dialog 1 of call "". -/
theorem timeout_of_unregistered_timer_closes_empty_key :
    2 ∉ (run (MainWindow.init 5 false)
      [.channelCreated "" ⟨"Eve", "http://e"⟩, .channelCreated "C" ⟨"Carl", "http://c"⟩,
       .channelCreated "C" ⟨"Carl", "http://c"⟩]).m_timersHash.values ∧
    (run (MainWindow.init 5 false)
      [.channelCreated "" ⟨"Eve", "http://e"⟩, .channelCreated "C" ⟨"Carl", "http://c"⟩,
       .channelCreated "C" ⟨"Carl", "http://c"⟩]).m_informerDialogsHash.contains "" = true ∧
    (run (MainWindow.init 5 false)
      [.channelCreated "" ⟨"Eve", "http://e"⟩, .channelCreated "C" ⟨"Carl", "http://c"⟩,
       .channelCreated "C" ⟨"Carl", "http://c"⟩]).m_informerDialogsHash.value "" = 1 ∧
    ((run (MainWindow.init 5 false)
      [.channelCreated "" ⟨"Eve", "http://e"⟩, .channelCreated "C" ⟨"Carl", "http://c"⟩,
       .channelCreated "C" ⟨"Carl", "http://c"⟩]).dialogHeap 1).visible = true ∧
    (run (MainWindow.init 5 false)
      [.channelCreated "" ⟨"Eve", "http://e"⟩, .channelCreated "C" ⟨"Carl", "http://c"⟩,
       .channelCreated "C" ⟨"Carl", "http://c"⟩,
       .timerTimeout 2]).m_informerDialogsHash.contains "" = false ∧
    ((run (MainWindow.init 5 false)
      [.channelCreated "" ⟨"Eve", "http://e"⟩, .channelCreated "C" ⟨"Carl", "http://c"⟩,
       .channelCreated "C" ⟨"Carl", "http://c"⟩,
       .timerTimeout 2]).dialogHeap 1).visible = false ∧
    ((run (MainWindow.init 5 false)
      [.channelCreated "" ⟨"Eve", "http://e"⟩, .channelCreated "C" ⟨"Carl", "http://c"⟩,
       .channelCreated "C" ⟨"Carl", "http://c"⟩,
       .timerTimeout 2]).dialogHeap 1).closeCalls = 1 ∧
    ((run (MainWindow.init 5 false)
      [.channelCreated "" ⟨"Eve", "http://e"⟩, .channelCreated "C" ⟨"Carl", "http://c"⟩,
       .channelCreated "C" ⟨"Carl", "http://c"⟩,
       .timerTimeout 2]).dialogHeap 1).deleteLaterCalls = 1 := by
  decide

/-- C14 (the code at the failing input): on the freshly constructed window,
"created" arrives twice for call "C", which replaces dialog 1 by dialog 2.
Dialog 1 is then held by neither dialog hash, and the empty string is no key of
either.  `dialogAttached(true)` from dialog 1 files it under the empty string
in `m_attachedDialogsHash`; `dialogAttached(false)` from dialog 1 files it under
the empty string in `m_informerDialogsHash`. -/
theorem attached_from_unregistered_dialog_registers_empty_key :
    1 ∉ (run (MainWindow.init 5 false)
      [.channelCreated "C" ⟨"Carl", "http://c"⟩,
       .channelCreated "C" ⟨"Carl", "http://c"⟩]).m_informerDialogsHash.values ∧
    1 ∉ (run (MainWindow.init 5 false)
      [.channelCreated "C" ⟨"Carl", "http://c"⟩,
       .channelCreated "C" ⟨"Carl", "http://c"⟩]).m_attachedDialogsHash.values ∧
    (run (MainWindow.init 5 false)
      [.channelCreated "C" ⟨"Carl", "http://c"⟩,
       .channelCreated "C" ⟨"Carl", "http://c"⟩]).m_informerDialogsHash.contains "" = false ∧
    (run (MainWindow.init 5 false)
      [.channelCreated "C" ⟨"Carl", "http://c"⟩,
       .channelCreated "C" ⟨"Carl", "http://c"⟩]).m_attachedDialogsHash.contains "" = false ∧
    (run (MainWindow.init 5 false)
      [.channelCreated "C" ⟨"Carl", "http://c"⟩, .channelCreated "C" ⟨"Carl", "http://c"⟩,
       .dialogAttached 1 true]).m_attachedDialogsHash.contains "" = true ∧
    (run (MainWindow.init 5 false)
      [.channelCreated "C" ⟨"Carl", "http://c"⟩, .channelCreated "C" ⟨"Carl", "http://c"⟩,
       .dialogAttached 1 true]).m_attachedDialogsHash.value "" = 1 ∧
    (run (MainWindow.init 5 false)
      [.channelCreated "C" ⟨"Carl", "http://c"⟩, .channelCreated "C" ⟨"Carl", "http://c"⟩,
       .dialogAttached 1 false]).m_informerDialogsHash.contains "" = true ∧
    (run (MainWindow.init 5 false)
      [.channelCreated "C" ⟨"Carl", "http://c"⟩, .channelCreated "C" ⟨"Carl", "http://c"⟩,
       .dialogAttached 1 false]).m_informerDialogsHash.value "" = 1 := by
  decide

/-! ## Display state after "answered" -/

theorem onChannelAnswered_dialogHeap (w : MainWindow) (callId : String)
    (hf : w.m_informerDialogsHash.contains callId = true) :
    (w.onChannelAnswered callId).dialogHeap
      = if (w.dialogHeap (w.m_informerDialogsHash.value callId)).visible
        then Function.update w.dialogHeap (w.m_informerDialogsHash.value callId)
          ((w.dialogHeap (w.m_informerDialogsHash.value callId)).setState
            DialogState.kStateAnswered)
        else w.dialogHeap := by
  simp only [onChannelAnswered, hf, Bool.not_true, Bool.false_eq_true, if_false,
    restartTimer_dialogHeap]
  split <;> rfl

theorem onChannelAnsweredAnother_dialogHeap (w : MainWindow)
    (callId calleeNumber calleeName : String)
    (hf : w.m_informerDialogsHash.contains callId = true) :
    (w.onChannelAnsweredAnother callId calleeNumber calleeName).dialogHeap
      = if (w.dialogHeap (w.m_informerDialogsHash.value callId)).visible
        then Function.update w.dialogHeap (w.m_informerDialogsHash.value callId)
          (((w.dialogHeap (w.m_informerDialogsHash.value callId)).setCallee calleeNumber
            calleeName).setState DialogState.kStateAnsweredAnother)
        else w.dialogHeap := by
  simp only [onChannelAnsweredAnother, hf, Bool.not_true, Bool.false_eq_true, if_false,
    restartTimer_dialogHeap]
  split <;> rfl

/-- C16: let the identifier be a key of `m_informerDialogsHash`, registered to
dialog `d`.  If `d` is shown, "answered" sets its display state to
`kStateAnswered` and leaves its peer information alone, and "answered by
another" sets its peer information to the given number and name and its
display state to `kStateAnsweredAnother`.  If `d` is not shown, both events
leave the dialog, display state and peer information included, exactly as it
was. -/
theorem answered_updates_display_only_when_shown (w : MainWindow)
    (callId calleeNumber calleeName : String)
    (hfree : w.m_informerDialogsHash.contains callId = true) :
    ((w.dialogHeap (w.m_informerDialogsHash.value callId)).visible = true →
      ((step w (.channelAnswered callId)).dialogHeap
          (w.m_informerDialogsHash.value callId)).state = DialogState.kStateAnswered ∧
      ((step w (.channelAnswered callId)).dialogHeap
          (w.m_informerDialogsHash.value callId)).callee
        = (w.dialogHeap (w.m_informerDialogsHash.value callId)).callee ∧
      ((step w (.channelAnsweredAnother callId calleeNumber calleeName)).dialogHeap
          (w.m_informerDialogsHash.value callId)).callee = some (calleeNumber, calleeName) ∧
      ((step w (.channelAnsweredAnother callId calleeNumber calleeName)).dialogHeap
          (w.m_informerDialogsHash.value callId)).state = DialogState.kStateAnsweredAnother) ∧
    ((w.dialogHeap (w.m_informerDialogsHash.value callId)).visible = false →
      (step w (.channelAnswered callId)).dialogHeap (w.m_informerDialogsHash.value callId)
        = w.dialogHeap (w.m_informerDialogsHash.value callId) ∧
      (step w (.channelAnsweredAnother callId calleeNumber calleeName)).dialogHeap
          (w.m_informerDialogsHash.value callId)
        = w.dialogHeap (w.m_informerDialogsHash.value callId)) := by
  have h1 := onChannelAnswered_dialogHeap w callId hfree
  have h2 := onChannelAnsweredAnother_dialogHeap w callId calleeNumber calleeName hfree
  constructor
  · intro hv
    rw [hv, if_pos rfl] at h1 h2
    simp only [step, h1, h2, Function.update_same]
    exact ⟨rfl, rfl, rfl, rfl⟩
  · intro hv
    rw [hv] at h1 h2
    simp only [step, h1, h2]
    exact ⟨rfl, rfl⟩

/-- Witness of C16: call "A" was just created and its dialog 1 is shown. -/
theorem answered_updates_display_only_when_shown_witness :
    (step (MainWindow.init 5 false)
      (.channelCreated "A" ⟨"Alice", "http://a"⟩)).m_informerDialogsHash.contains "A" = true ∧
    ((step (MainWindow.init 5 false) (.channelCreated "A" ⟨"Alice", "http://a"⟩)).dialogHeap
      ((step (MainWindow.init 5 false)
        (.channelCreated "A" ⟨"Alice", "http://a"⟩)).m_informerDialogsHash.value "A")).visible
      = true ∧
    ((step (step (MainWindow.init 5 false) (.channelCreated "A" ⟨"Alice", "http://a"⟩))
      (.channelAnswered "A")).dialogHeap
      ((step (MainWindow.init 5 false)
        (.channelCreated "A" ⟨"Alice", "http://a"⟩)).m_informerDialogsHash.value "A")).state
      = DialogState.kStateAnswered :=
  ⟨by decide, by decide,
   ((answered_updates_display_only_when_shown
      (step (MainWindow.init 5 false) (.channelCreated "A" ⟨"Alice", "http://a"⟩))
      "A" "101" "Carol" (by decide)).1 (by decide)).1⟩

/-! ## Pinning and unpinning again -/

/-- C17: if dialog `d` is registered under `callId` in `m_informerDialogsHash` and
`callId` is no key of `m_attachedDialogsHash`, then `dialogAttached(true)` from
`d` followed by `dialogAttached(false)` from `d` gives back the same three
maps: `m_informerDialogsHash` has the same keys with the same dialogs as
before, and `m_attachedDialogsHash` and `m_timersHash` are equal to what they
were, entry by entry and in the same order. -/
theorem attach_then_detach_restores_maps (w : MainWindow) (callId : String) (d : Nat)
    (hfree : w.m_informerDialogsHash.holds callId d)
    (hpinned : w.m_attachedDialogsHash.contains callId = false) :
    (run w [.dialogAttached d true, .dialogAttached d false]).m_informerDialogsHash.sameMap
      w.m_informerDialogsHash ∧
    (run w [.dialogAttached d true, .dialogAttached d false]).m_attachedDialogsHash
      = w.m_attachedDialogsHash ∧
    (run w [.dialogAttached d true, .dialogAttached d false]).m_timersHash = w.m_timersHash := by
  obtain ⟨hc, hv, hkey⟩ := hfree
  have hF1 : (step w (.dialogAttached d true)).m_informerDialogsHash
      = w.m_informerDialogsHash.remove callId := by
    simp only [step, processDialogAttached_free, updDialog_free, if_true, hkey]
  have hP1 : (step w (.dialogAttached d true)).m_attachedDialogsHash
      = w.m_attachedDialogsHash.insert callId d := by
    simp only [step, processDialogAttached_pinned, updDialog_free, updDialog_pinned, if_true,
      hkey]
  have hF2 : (run w [.dialogAttached d true, .dialogAttached d false]).m_informerDialogsHash
      = (w.m_informerDialogsHash.remove callId).insert callId d := by
    show (step (step w (.dialogAttached d true)) (.dialogAttached d false)).m_informerDialogsHash
      = _
    generalize step w (.dialogAttached d true) = w1 at hF1 hP1
    simp only [step, processDialogAttached_free, updDialog_free, updDialog_pinned,
      Bool.false_eq_true, if_false, hF1, hP1, QHash.key_insert_self]
  have hP2 : (run w [.dialogAttached d true, .dialogAttached d false]).m_attachedDialogsHash
      = w.m_attachedDialogsHash := by
    show (step (step w (.dialogAttached d true)) (.dialogAttached d false)).m_attachedDialogsHash
      = _
    generalize step w (.dialogAttached d true) = w1 at hF1 hP1
    simp only [step, processDialogAttached_pinned, updDialog_pinned, Bool.false_eq_true,
      if_false, hP1, QHash.key_insert_self, QHash.remove_insert_self,
      QHash.remove_of_not_contains _ hpinned]
  refine ⟨?_, hP2, ?_⟩
  · intro k
    rw [hF2]
    by_cases hk : k = callId
    · subst hk
      rw [QHash.contains_insert_self, QHash.value_insert_self, hc, hv]
      exact ⟨rfl, rfl⟩
    · rw [QHash.contains_insert, beq_eq_false_iff_ne.mpr hk, Bool.false_or,
        QHash.contains_remove, bne_iff_ne.mpr hk, Bool.and_true,
        QHash.value_insert_of_ne _ _ hk, QHash.value_remove_of_ne _ hk]
      exact ⟨rfl, rfl⟩
  · simp only [run, step, processDialogAttached_timers, updDialog_timers]

/-- Witness of C17: dialog 1 of call "A" is pinned and unpinned while call "B"
is free as well. -/
theorem attach_then_detach_restores_maps_witness :
    (run (MainWindow.init 5 false)
      [.channelCreated "A" ⟨"Alice", "http://a"⟩,
       .channelCreated "B" ⟨"Bob", "http://b"⟩]).m_informerDialogsHash.holds "A" 1 ∧
    (run (MainWindow.init 5 false)
      [.channelCreated "A" ⟨"Alice", "http://a"⟩,
       .channelCreated "B" ⟨"Bob", "http://b"⟩]).m_attachedDialogsHash.contains "A" = false ∧
    ((run (run (MainWindow.init 5 false)
      [.channelCreated "A" ⟨"Alice", "http://a"⟩, .channelCreated "B" ⟨"Bob", "http://b"⟩])
      [.dialogAttached 1 true, .dialogAttached 1 false]).m_informerDialogsHash.sameMap
      (run (MainWindow.init 5 false)
        [.channelCreated "A" ⟨"Alice", "http://a"⟩,
         .channelCreated "B" ⟨"Bob", "http://b"⟩]).m_informerDialogsHash ∧
     (run (run (MainWindow.init 5 false)
      [.channelCreated "A" ⟨"Alice", "http://a"⟩, .channelCreated "B" ⟨"Bob", "http://b"⟩])
      [.dialogAttached 1 true, .dialogAttached 1 false]).m_attachedDialogsHash
      = (run (MainWindow.init 5 false)
        [.channelCreated "A" ⟨"Alice", "http://a"⟩,
         .channelCreated "B" ⟨"Bob", "http://b"⟩]).m_attachedDialogsHash ∧
     (run (run (MainWindow.init 5 false)
      [.channelCreated "A" ⟨"Alice", "http://a"⟩, .channelCreated "B" ⟨"Bob", "http://b"⟩])
      [.dialogAttached 1 true, .dialogAttached 1 false]).m_timersHash
      = (run (MainWindow.init 5 false)
        [.channelCreated "A" ⟨"Alice", "http://a"⟩,
         .channelCreated "B" ⟨"Bob", "http://b"⟩]).m_timersHash) :=
  ⟨by decide, by decide,
   attach_then_detach_restores_maps
     (run (MainWindow.init 5 false)
       [.channelCreated "A" ⟨"Alice", "http://a"⟩, .channelCreated "B" ⟨"Bob", "http://b"⟩])
     "A" 1 (by decide) (by decide)⟩

/-! ## Every dialog and every timer is released at most once -/

theorem QHash.values_remove_sublist (h : QHash) (k : String) :
    List.Sublist (h.remove k).values h.values :=
  (QHash.remove_entries_sublist h k).map Prod.snd

theorem QHash.eq_of_mem_of_nodup (h : QHash) (hnd : h.values.Nodup) {e e' : String × Nat}
    (he : e ∈ h.entries) (he' : e' ∈ h.entries) (hv : e.2 = e'.2) : e = e' :=
  List.inj_on_of_nodup_map hnd he he' hv

theorem QHash.not_mem_values_remove (h : QHash) (hnd : h.values.Nodup) {k : String} {v : Nat}
    (hm : (k, v) ∈ h.entries) : v ∉ (h.remove k).values := by
  intro hmem
  obtain ⟨e, he, hev⟩ := List.mem_map.mp hmem
  obtain ⟨he1, he2⟩ := (QHash.mem_remove h k e).mp he
  have := QHash.eq_of_mem_of_nodup h hnd he1 hm hev
  exact he2 (by rw [this])

theorem QHash.key_mem_entries (h : QHash) {v : Nat} (hv : v ∈ h.values) :
    (h.key v, v) ∈ h.entries := by
  obtain ⟨e, he, hev⟩ := List.mem_map.mp hv
  cases hf : h.entries.find? (fun e => e.2 == v) with
  | none =>
    rw [List.find?_eq_none] at hf
    exact absurd (by simpa using hev) (hf e he)
  | some x =>
    have hx := List.find?_some hf
    have hmem := List.mem_of_find?_eq_some hf
    have hx2 : x.2 = v := by simpa using hx
    have hk : h.key v = x.1 := by simp only [QHash.key, hf]
    rw [hk, ← hx2]
    exact hmem

theorem step_nextDialog (w : MainWindow) (e : Event) :
    (step w e).nextDialog
      = match e with
        | .channelCreated _ _ => w.nextDialog + 1
        | _ => w.nextDialog := by
  cases e with
  | channelCreated callId caller => rfl
  | channelAnswered callId =>
    simp only [step, MainWindow.onChannelAnswered, MainWindow.restartTimer]
    repeat' split
    all_goals rfl
  | channelAnsweredAnother callId calleeNumber calleeName =>
    simp only [step, MainWindow.onChannelAnsweredAnother, MainWindow.restartTimer]
    repeat' split
    all_goals rfl
  | channelDestroyed callId =>
    simp only [step, MainWindow.onChannelDestroyed]
    repeat' split
    all_goals rfl
  | timerTimeout timer =>
    simp only [step, MainWindow.timeout]
    repeat' split
    all_goals rfl
  | dialogFinished informerDialog =>
    simp only [step, MainWindow.processDialogFinished]
    split
    · rfl
    · split <;> rfl
  | dialogAttached informerDialog attached =>
    simp only [step, MainWindow.processDialogAttached]
    split <;> rfl
  | closeAllPopups =>
    have hfold : ∀ (l : List Nat) (w : MainWindow),
        (l.foldl MainWindow.closeAndDelete w).nextDialog = w.nextDialog := by
      intro l
      induction l with
      | nil => intro w; rfl
      | cons p l ih => intro w; simp only [List.foldl_cons, ih]; rfl
    simp only [step, MainWindow.closeAllPopups, hfold]

theorem timeout_timerHeap (w : MainWindow) (timer : Nat) :
    (w.timeout timer).timerHeap = w.timerHeap := by
  simp only [MainWindow.timeout, MainWindow.updDialog]
  repeat' split
  all_goals rfl

theorem timeout_dialogHeap (w : MainWindow) (timer : Nat) (h0 : timer ≠ 0)
    (hf : w.m_informerDialogsHash.contains (w.m_timersHash.key timer) = true) :
    (w.timeout timer).dialogHeap
      = Function.update w.dialogHeap (w.m_informerDialogsHash.value (w.m_timersHash.key timer))
          (if (w.dialogHeap
              (w.m_informerDialogsHash.value (w.m_timersHash.key timer))).visible
           then (w.dialogHeap
              (w.m_informerDialogsHash.value (w.m_timersHash.key timer))).close
           else w.dialogHeap
              (w.m_informerDialogsHash.value (w.m_timersHash.key timer))).deleteLater := by
  simp only [MainWindow.timeout, h0, if_false, hf, Bool.not_true, Bool.false_eq_true]
  split <;>
    simp [MainWindow.updDialog, Function.update_idem, Function.update_same]

theorem processDialogAttached_dialogHeap (w : MainWindow) (informerDialog : Nat)
    (attached : Bool) :
    (w.processDialogAttached informerDialog attached).dialogHeap = w.dialogHeap := by
  unfold processDialogAttached
  split <;> rfl

/-- Only `timeout`, `onChannelDestroyed` and `closeAllPopups` call `deleteLater()` on a
dialog: the other events leave the count of every dialog that exists as it
is. -/
theorem step_dialog_deleteLaterCalls_of_other (w : MainWindow) (e : Event) (p : Nat)
    (h0 : ∀ callId caller, e ≠ .channelCreated callId caller)
    (h1 : ∀ callId, e ≠ .channelDestroyed callId)
    (h2 : ∀ timer, e ≠ .timerTimeout timer)
    (h3 : e ≠ .closeAllPopups) :
    ((step w e).dialogHeap p).deleteLaterCalls = (w.dialogHeap p).deleteLaterCalls := by
  cases e with
  | channelCreated callId caller => exact absurd rfl (h0 callId caller)
  | channelAnswered callId =>
    by_cases hf : w.m_informerDialogsHash.contains callId = true
    · simp only [step, onChannelAnswered_dialogHeap w callId hf]
      split
      · by_cases h : p = w.m_informerDialogsHash.value callId
        · subst h; simp [InformerDialog.setState]
        · simp [Function.update_noteq h]
      · rfl
    · have hf' : w.m_informerDialogsHash.contains callId = false := by simpa using hf
      simp only [step, MainWindow.onChannelAnswered_of_not_contains w callId hf']
  | channelAnsweredAnother callId calleeNumber calleeName =>
    by_cases hf : w.m_informerDialogsHash.contains callId = true
    · simp only [step, onChannelAnsweredAnother_dialogHeap w callId _ _ hf]
      split
      · by_cases h : p = w.m_informerDialogsHash.value callId
        · subst h; simp [InformerDialog.setState, InformerDialog.setCallee]
        · simp [Function.update_noteq h]
      · rfl
    · have hf' : w.m_informerDialogsHash.contains callId = false := by simpa using hf
      simp only [step,
        MainWindow.onChannelAnsweredAnother_of_not_contains w callId _ _ hf']
  | channelDestroyed callId => exact absurd rfl (h1 callId)
  | timerTimeout timer => exact absurd rfl (h2 timer)
  | dialogFinished informerDialog =>
    simp only [step, processDialogFinished_dialogHeap]
  | dialogAttached informerDialog attached =>
    simp only [step, processDialogAttached_dialogHeap, MainWindow.updDialog]
    by_cases h : p = informerDialog
    · subst h; simp [InformerDialog.setAttached]
    · simp [Function.update_noteq h]
  | closeAllPopups => exact absurd rfl h3

/-- Only `onChannelDestroyed` calls `deleteLater()` on a timer: the other events
leave the count of every timer that exists as it is. -/
theorem step_timer_deleteLaterCalls_of_other (w : MainWindow) (e : Event) (q : Nat)
    (h0 : ∀ callId caller, e ≠ .channelCreated callId caller) (h1 : ∀ callId, e ≠ .channelDestroyed callId) :
    ((step w e).timerHeap q).deleteLaterCalls = (w.timerHeap q).deleteLaterCalls := by
  cases e with
  | channelCreated callId caller => exact absurd rfl (h0 callId caller)
  | channelAnswered callId =>
    simp only [step, MainWindow.onChannelAnswered, MainWindow.restartTimer,
      MainWindow.updTimer, MainWindow.updDialog]
    repeat' split
    all_goals first
      | rfl
      | (by_cases h : q = w.m_timersHash.value callId
         · subst h; simp [QTimer.start]
         · simp [Function.update_noteq h])
  | channelAnsweredAnother callId calleeNumber calleeName =>
    simp only [step, MainWindow.onChannelAnsweredAnother, MainWindow.restartTimer,
      MainWindow.updTimer, MainWindow.updDialog]
    repeat' split
    all_goals first
      | rfl
      | (by_cases h : q = w.m_timersHash.value callId
         · subst h; simp [QTimer.start]
         · simp [Function.update_noteq h])
  | channelDestroyed callId => exact absurd rfl (h1 callId)
  | timerTimeout timer => simp only [step, timeout_timerHeap]
  | dialogFinished informerDialog => simp only [step, processDialogFinished_timerHeap]
  | dialogAttached informerDialog attached =>
    simp only [step, MainWindow.processDialogAttached_timerHeap, MainWindow.updDialog_timerHeap]
  | closeAllPopups => simp only [step, closeAllPopups_timerHeap]

theorem step_preserves_timersOwnedOnce (w : MainWindow) (e : Event)
    (h : w.timersOwnedOnce) : (step w e).timersOwnedOnce := by
  obtain ⟨hnd, hreg, hall⟩ := h
  by_cases hc : ∃ callId caller, e = .channelCreated callId caller
  · obtain ⟨callId, caller, rfl⟩ := hc
    have hsub := QHash.values_remove_sublist w.m_timersHash callId
    have hT : (step w (.channelCreated callId caller)).m_timersHash.values
        = w.nextTimer :: (w.m_timersHash.remove callId).values := rfl
    have hH : (step w (.channelCreated callId caller)).timerHeap
        = Function.update w.timerHeap w.nextTimer
            (QTimer.startMsec (QTimer.setSingleShot QTimer.new true) (w.popupTimeout * 1000)) :=
      rfl
    have hN : (step w (.channelCreated callId caller)).nextTimer = w.nextTimer + 1 := rfl
    refine ⟨?_, ?_, ?_⟩
    · rw [hT, List.nodup_cons]
      refine ⟨fun hmem => ?_, hnd.sublist hsub⟩
      have := (hreg _ (hsub.subset hmem)).1
      omega
    · intro t ht
      rw [hT, List.mem_cons] at ht
      rw [hN, hH]
      rcases ht with ht | ht
      · subst ht
        rw [Function.update_same]
        exact ⟨Nat.lt_succ_self _, rfl⟩
      · have hlt := (hreg t (hsub.subset ht)).1
        rw [Function.update_noteq (Nat.ne_of_lt hlt)]
        exact ⟨Nat.lt_succ_of_lt hlt, (hreg t (hsub.subset ht)).2⟩
    · intro q
      rw [hH]
      by_cases hq : q = w.nextTimer
      · subst hq
        rw [Function.update_same]
        exact Nat.zero_le 1
      · rw [Function.update_noteq hq]
        exact hall q
  · have h0 : ∀ callId caller, e ≠ .channelCreated callId caller :=
      fun callId caller he => hc ⟨callId, caller, he⟩
    have hN : (step w e).nextTimer = w.nextTimer := by
      rw [step_nextTimer]
      cases e with
      | channelCreated callId caller => exact absurd rfl (h0 callId caller)
      | _ => rfl
    have hsub : List.Sublist (step w e).m_timersHash.values w.m_timersHash.values :=
      (step_timers_sublist w e h0).map Prod.snd
    by_cases hd : ∃ callId, e = .channelDestroyed callId
    · obtain ⟨callId, rfl⟩ := hd
      by_cases hf : w.m_informerDialogsHash.contains callId = true
      · have hT : (step w (.channelDestroyed callId)).m_timersHash
            = w.m_timersHash.remove callId := by
          show (w.onChannelDestroyed callId).m_timersHash = _
          rw [onChannelDestroyed_timers, hf, if_pos rfl]
        have hH := onChannelDestroyed_timerHeap w callId hf
        by_cases ht : w.m_timersHash.contains callId = true
        · have hH' : (step w (.channelDestroyed callId)).timerHeap
              = Function.update w.timerHeap (w.m_timersHash.value callId)
                  (w.timerHeap (w.m_timersHash.value callId)).stop.deleteLater := by
            show (w.onChannelDestroyed callId).timerHeap = _
            rw [hH, ht, if_pos rfl]
          have hmem := QHash.mem_of_contains _ ht
          have hnot := QHash.not_mem_values_remove _ hnd hmem
          have hzero := (hreg _ (QHash.value_mem_values _ ht)).2
          refine ⟨hnd.sublist hsub, ?_, ?_⟩
          · intro t hmt
            rw [hN, hH']
            have hne : t ≠ w.m_timersHash.value callId := by
              intro he
              rw [hT, he] at hmt
              exact hnot hmt
            rw [Function.update_noteq hne]
            exact hreg t (hsub.subset hmt)
          · intro q
            rw [hH']
            by_cases hq : q = w.m_timersHash.value callId
            · subst hq
              rw [Function.update_same]
              show (w.timerHeap (w.m_timersHash.value callId)).deleteLaterCalls + 1 ≤ 1
              rw [hzero]
            · rw [Function.update_noteq hq]
              exact hall q
        · have ht' : w.m_timersHash.contains callId = false := by simpa using ht
          have hH' : (step w (.channelDestroyed callId)).timerHeap = w.timerHeap := by
            show (w.onChannelDestroyed callId).timerHeap = _
            rw [hH, ht']; rfl
          refine ⟨hnd.sublist hsub, ?_, ?_⟩
          · intro t hmt
            rw [hN, hH']
            exact hreg t (hsub.subset hmt)
          · intro q
            rw [hH']
            exact hall q
      · have hf' : w.m_informerDialogsHash.contains callId = false := by simpa using hf
        have hsame : step w (.channelDestroyed callId) = w :=
          MainWindow.onChannelDestroyed_of_not_contains w callId hf'
        rw [hsame]
        exact ⟨hnd, hreg, hall⟩
    · have h1 : ∀ callId, e ≠ .channelDestroyed callId := fun callId he => hd ⟨callId, he⟩
      have hdlc := fun q => step_timer_deleteLaterCalls_of_other w e q h0 h1
      refine ⟨hnd.sublist hsub, ?_, ?_⟩
      · intro t hmt
        rw [hN, hdlc]
        exact hreg t (hsub.subset hmt)
      · intro q
        rw [hdlc]
        exact hall q

/-- A slot that only drops entries of the dialog hashes and calls `deleteLater()`
on no dialog keeps the ownership of dialogs intact. -/
theorem dialogsOwnedOnce_of_keep (w w' : MainWindow) (h : w.dialogsOwnedOnce)
    (hF : List.Sublist w'.m_informerDialogsHash.values w.m_informerDialogsHash.values)
    (hP : List.Sublist w'.m_attachedDialogsHash.values w.m_attachedDialogsHash.values)
    (hN : w'.nextDialog = w.nextDialog)
    (hD : ∀ p, (w'.dialogHeap p).deleteLaterCalls = (w.dialogHeap p).deleteLaterCalls) :
    w'.dialogsOwnedOnce := by
  obtain ⟨hfn, hpn, hdis, hreg, hall⟩ := h
  refine ⟨hfn.sublist hF, hpn.sublist hP, ?_, ?_, ?_⟩
  · intro d hd hd'
    exact hdis d (hF.subset hd) (hP.subset hd')
  · intro d hd
    rw [hN, hD]
    exact hreg d (hd.imp (fun x => hF.subset x) (fun x => hP.subset x))
  · intro p
    rw [hD]
    exact hall p

/-- A slot that removes the key `k` from `m_informerDialogsHash` and calls
`deleteLater()` once on the dialog registered under `k` keeps the ownership of
dialogs intact. -/
theorem dialogsOwnedOnce_of_release (w w' : MainWindow) (k : String) (X : InformerDialog)
    (h : w.dialogsOwnedOnce)
    (hf : w.m_informerDialogsHash.contains k = true)
    (hF : w'.m_informerDialogsHash = w.m_informerDialogsHash.remove k)
    (hP : w'.m_attachedDialogsHash = w.m_attachedDialogsHash)
    (hN : w'.nextDialog = w.nextDialog)
    (hH : w'.dialogHeap = Function.update w.dialogHeap (w.m_informerDialogsHash.value k) X)
    (hX : X.deleteLaterCalls
      = (w.dialogHeap (w.m_informerDialogsHash.value k)).deleteLaterCalls + 1) :
    w'.dialogsOwnedOnce := by
  obtain ⟨hfn, hpn, hdis, hreg, hall⟩ := h
  have hsub := QHash.values_remove_sublist w.m_informerDialogsHash k
  have hmem := QHash.mem_of_contains _ hf
  have hval := QHash.value_mem_values _ hf
  have hnot := QHash.not_mem_values_remove _ hfn hmem
  have hzero := (hreg _ (Or.inl hval)).2
  rw [dialogsOwnedOnce, hF, hP, hN, hH]
  refine ⟨hfn.sublist hsub, hpn, ?_, ?_, ?_⟩
  · intro d hd
    exact hdis d (hsub.subset hd)
  · intro d hd
    have hne : d ≠ w.m_informerDialogsHash.value k := by
      rcases hd with hd | hd
      · intro he
        rw [he] at hd
        exact hnot hd
      · intro he
        rw [he] at hd
        exact hdis _ hval hd
    rw [Function.update_noteq hne]
    exact hreg d (hd.imp (fun x => hsub.subset x) id)
  · intro p
    by_cases hp : p = w.m_informerDialogsHash.value k
    · subst hp
      rw [Function.update_same, hX, hzero]
    · rw [Function.update_noteq hp]
      exact hall p

theorem step_preserves_dialogsOwnedOnce (w : MainWindow) (e : Event) (hd : e.disciplined w)
    (h : w.dialogsOwnedOnce) : (step w e).dialogsOwnedOnce := by
  cases e with
  | channelCreated callId caller =>
    obtain ⟨hfn, hpn, hdis, hreg, hall⟩ := h
    have hsub := QHash.values_remove_sublist w.m_informerDialogsHash callId
    have hF : (step w (.channelCreated callId caller)).m_informerDialogsHash.values
        = w.nextDialog :: (w.m_informerDialogsHash.remove callId).values := rfl
    have hP : (step w (.channelCreated callId caller)).m_attachedDialogsHash
        = w.m_attachedDialogsHash := rfl
    have hH : (step w (.channelCreated callId caller)).dialogHeap
        = Function.update w.dialogHeap w.nextDialog
            (InformerDialog.show (InformerDialog.setCaller InformerDialog.new caller)) := rfl
    have hN : (step w (.channelCreated callId caller)).nextDialog = w.nextDialog + 1 := rfl
    rw [dialogsOwnedOnce, hF, hP, hH, hN]
    refine ⟨?_, hpn, ?_, ?_, ?_⟩
    · rw [List.nodup_cons]
      refine ⟨fun hmem => ?_, hfn.sublist hsub⟩
      have := (hreg _ (Or.inl (hsub.subset hmem))).1
      omega
    · intro d hmd hmp
      rcases List.mem_cons.mp hmd with hmd | hmd
      · have := (hreg _ (Or.inr hmp)).1
        omega
      · exact hdis d (hsub.subset hmd) hmp
    · intro d hmd
      have hcases : d = w.nextDialog ∨ (d ∈ w.m_informerDialogsHash.values ∨
          d ∈ w.m_attachedDialogsHash.values) := by
        rcases hmd with hmd | hmd
        · rcases List.mem_cons.mp hmd with hmd | hmd
          · exact Or.inl hmd
          · exact Or.inr (Or.inl (hsub.subset hmd))
        · exact Or.inr (Or.inr hmd)
      rcases hcases with hc | hc
      · subst hc
        rw [Function.update_same]
        exact ⟨Nat.lt_succ_self _, rfl⟩
      · have hlt := (hreg d hc).1
        rw [Function.update_noteq (Nat.ne_of_lt hlt)]
        exact ⟨Nat.lt_succ_of_lt hlt, (hreg d hc).2⟩
    · intro p
      by_cases hp : p = w.nextDialog
      · subst hp
        rw [Function.update_same]
        exact Nat.zero_le 1
      · rw [Function.update_noteq hp]
        exact hall p
  | channelAnswered callId =>
    apply dialogsOwnedOnce_of_keep w _ h
    · rw [show (step w (.channelAnswered callId)).m_informerDialogsHash
        = w.m_informerDialogsHash from onChannelAnswered_free w callId]
    · rw [show (step w (.channelAnswered callId)).m_attachedDialogsHash
        = w.m_attachedDialogsHash from onChannelAnswered_pinned w callId]
    · rw [step_nextDialog]
    · intro p
      exact step_dialog_deleteLaterCalls_of_other w _ p (fun _ _ he => by cases he)
        (fun _ he => by cases he) (fun _ he => by cases he) (fun he => by cases he)
  | channelAnsweredAnother callId calleeNumber calleeName =>
    apply dialogsOwnedOnce_of_keep w _ h
    · rw [show (step w (.channelAnsweredAnother callId calleeNumber
        calleeName)).m_informerDialogsHash = w.m_informerDialogsHash from
        onChannelAnsweredAnother_free w callId calleeNumber calleeName]
    · rw [show (step w (.channelAnsweredAnother callId calleeNumber
        calleeName)).m_attachedDialogsHash = w.m_attachedDialogsHash from
        onChannelAnsweredAnother_pinned w callId calleeNumber calleeName]
    · rw [step_nextDialog]
    · intro p
      exact step_dialog_deleteLaterCalls_of_other w _ p (fun _ _ he => by cases he)
        (fun _ he => by cases he) (fun _ he => by cases he) (fun he => by cases he)
  | channelDestroyed callId =>
    by_cases hf : w.m_informerDialogsHash.contains callId = true
    · refine dialogsOwnedOnce_of_release w _ callId _ h hf
        (onChannelDestroyed_free w callId) (onChannelDestroyed_pinned w callId)
        (by rw [step_nextDialog]) (onChannelDestroyed_dialogHeap w callId hf) ?_
      split <;> rfl
    · have hf' : w.m_informerDialogsHash.contains callId = false := by simpa using hf
      have hsame : step w (.channelDestroyed callId) = w :=
        MainWindow.onChannelDestroyed_of_not_contains w callId hf'
      rw [hsame]
      exact h
  | timerTimeout timer =>
    by_cases hf : w.m_informerDialogsHash.contains (w.m_timersHash.key timer) = true
    · by_cases h0 : timer = 0
      · have hsame : step w (.timerTimeout timer) = w := by
          simp [step, MainWindow.timeout, h0]
        rw [hsame]
        exact h
      · refine dialogsOwnedOnce_of_release w _ (w.m_timersHash.key timer) _ h hf ?_
          (timeout_pinned w timer) (by rw [step_nextDialog])
          (timeout_dialogHeap w timer h0 hf) ?_
        · show (w.timeout timer).m_informerDialogsHash = _
          rw [timeout_free, if_neg h0]
        · split <;> rfl
    · have hf' : w.m_informerDialogsHash.contains (w.m_timersHash.key timer) = false := by
        simpa using hf
      have hsame : step w (.timerTimeout timer) = w :=
        MainWindow.timeout_of_not_contains w timer hf'
      rw [hsame]
      exact h
  | dialogFinished informerDialog =>
    apply dialogsOwnedOnce_of_keep w _ h
    · show List.Sublist (w.processDialogFinished informerDialog).m_informerDialogsHash.values _
      rw [processDialogFinished_free]
      split
      · exact QHash.values_remove_sublist _ _
      · exact List.Sublist.refl _
    · show List.Sublist (w.processDialogFinished informerDialog).m_attachedDialogsHash.values _
      rw [processDialogFinished_pinned]
      split
      · exact List.Sublist.refl _
      · split
        · exact QHash.values_remove_sublist _ _
        · exact List.Sublist.refl _
    · rw [step_nextDialog]
    · intro p
      exact step_dialog_deleteLaterCalls_of_other w _ p (fun _ _ he => by cases he)
        (fun _ he => by cases he) (fun _ he => by cases he) (fun he => by cases he)
  | dialogAttached informerDialog attached =>
    obtain ⟨hfn, hpn, hdis, hreg, hall⟩ := h
    have hD : ∀ p, ((step w (.dialogAttached informerDialog attached)).dialogHeap p).deleteLaterCalls
        = (w.dialogHeap p).deleteLaterCalls := fun p =>
      step_dialog_deleteLaterCalls_of_other w _ p (fun _ _ he => by cases he)
        (fun _ he => by cases he) (fun _ he => by cases he) (fun he => by cases he)
    have hN : (step w (.dialogAttached informerDialog attached)).nextDialog = w.nextDialog := by
      rw [step_nextDialog]
    cases attached with
    | true =>
      have hmem : informerDialog ∈ w.m_informerDialogsHash.values := hd
      have hent := QHash.key_mem_entries _ hmem
      have hnot := QHash.not_mem_values_remove _ hfn hent
      have hsubF := QHash.values_remove_sublist w.m_informerDialogsHash
        (w.m_informerDialogsHash.key informerDialog)
      have hsubP := QHash.values_remove_sublist w.m_attachedDialogsHash
        (w.m_informerDialogsHash.key informerDialog)
      have hF : (step w (.dialogAttached informerDialog true)).m_informerDialogsHash
          = w.m_informerDialogsHash.remove (w.m_informerDialogsHash.key informerDialog) := by
        simp only [step, processDialogAttached_free, updDialog_free, if_true]
      have hP : (step w (.dialogAttached informerDialog true)).m_attachedDialogsHash.values
          = informerDialog :: (w.m_attachedDialogsHash.remove
              (w.m_informerDialogsHash.key informerDialog)).values := by
        simp only [step, processDialogAttached_pinned, updDialog_free, updDialog_pinned, if_true,
          QHash.values_insert]
      rw [dialogsOwnedOnce, hF, hP, hN]
      refine ⟨hfn.sublist hsubF, ?_, ?_, ?_, ?_⟩
      · rw [List.nodup_cons]
        exact ⟨fun hm => hdis _ hmem (hsubP.subset hm), hpn.sublist hsubP⟩
      · intro d hmd hmp
        rcases List.mem_cons.mp hmp with hmp | hmp
        · rw [hmp] at hmd
          exact hnot hmd
        · exact hdis d (hsubF.subset hmd) (hsubP.subset hmp)
      · intro d hmd
        rw [hD]
        apply hreg
        rcases hmd with hmd | hmd
        · exact Or.inl (hsubF.subset hmd)
        · rcases List.mem_cons.mp hmd with hmd | hmd
          · rw [hmd]; exact Or.inl hmem
          · exact Or.inr (hsubP.subset hmd)
      · intro p
        rw [hD]
        exact hall p
    | false =>
      have hmem : informerDialog ∈ w.m_attachedDialogsHash.values := hd
      have hent := QHash.key_mem_entries _ hmem
      have hnot := QHash.not_mem_values_remove _ hpn hent
      have hsubF := QHash.values_remove_sublist w.m_informerDialogsHash
        (w.m_attachedDialogsHash.key informerDialog)
      have hsubP := QHash.values_remove_sublist w.m_attachedDialogsHash
        (w.m_attachedDialogsHash.key informerDialog)
      have hP : (step w (.dialogAttached informerDialog false)).m_attachedDialogsHash
          = w.m_attachedDialogsHash.remove (w.m_attachedDialogsHash.key informerDialog) := by
        simp only [step, processDialogAttached_pinned, updDialog_pinned, Bool.false_eq_true,
          if_false]
      have hF : (step w (.dialogAttached informerDialog false)).m_informerDialogsHash.values
          = informerDialog :: (w.m_informerDialogsHash.remove
              (w.m_attachedDialogsHash.key informerDialog)).values := by
        simp only [step, processDialogAttached_free, updDialog_free, updDialog_pinned,
          Bool.false_eq_true, if_false, QHash.values_insert]
      rw [dialogsOwnedOnce, hF, hP, hN]
      refine ⟨?_, hpn.sublist hsubP, ?_, ?_, ?_⟩
      · rw [List.nodup_cons]
        exact ⟨fun hm => hdis _ (hsubF.subset hm) hmem, hfn.sublist hsubF⟩
      · intro d hmd hmp
        rcases List.mem_cons.mp hmd with hmd | hmd
        · rw [hmd] at hmp
          exact hnot hmp
        · exact hdis d (hsubF.subset hmd) (hsubP.subset hmp)
      · intro d hmd
        rw [hD]
        apply hreg
        rcases hmd with hmd | hmd
        · rcases List.mem_cons.mp hmd with hmd | hmd
          · rw [hmd]; exact Or.inr hmem
          · exact Or.inl (hsubF.subset hmd)
        · exact Or.inr (hsubP.subset hmd)
      · intro p
        rw [hD]
        exact hall p
  | closeAllPopups =>
    obtain ⟨hfn, hpn, hdis, hreg, hall⟩ := h
    have hnd : (w.m_informerDialogsHash.values ++ w.m_attachedDialogsHash.values).Nodup :=
      List.nodup_append.mpr ⟨hfn, hpn, fun d hd hd' => hdis d hd hd'⟩
    have hF : (step w .closeAllPopups).m_informerDialogsHash = QHash.empty :=
      closeAllPopups_free w
    have hP : (step w .closeAllPopups).m_attachedDialogsHash = QHash.empty :=
      closeAllPopups_pinned w
    rw [dialogsOwnedOnce, hF, hP]
    refine ⟨List.nodup_nil, List.nodup_nil, fun d hd => absurd hd (List.not_mem_nil d),
      fun d hd => absurd hd (by rintro (hd | hd) <;> exact List.not_mem_nil d hd), ?_⟩
    intro p
    show (w.closeAllPopups.dialogHeap p).deleteLaterCalls ≤ 1
    rw [closeAllPopups_dialogHeap, (iterate_close_deleteLater _ _).2.1]
    by_cases hp : p ∈ w.m_informerDialogsHash.values ++ w.m_attachedDialogsHash.values
    · have hz := (hreg p (List.mem_append.mp hp)).2
      have hc := List.nodup_iff_count_le_one.mp hnd p
      omega
    · rw [List.count_eq_zero_of_not_mem hp]
      exact hall p

theorem run_preserves_ownedOnce (es : List Event) (w : MainWindow)
    (hdisc : disciplinedTrace w es) (hd : w.dialogsOwnedOnce) (ht : w.timersOwnedOnce) :
    (run w es).dialogsOwnedOnce ∧ (run w es).timersOwnedOnce := by
  induction es generalizing w with
  | nil => exact ⟨hd, ht⟩
  | cons e es ih =>
    exact ih (step w e) hdisc.2 (step_preserves_dialogsOwnedOnce w e hdisc.1 hd)
      (step_preserves_timersOwnedOnce w e ht)

theorem init_dialogsOwnedOnce (popupTimeout : Int) (autoOpenUrl : Bool) :
    (MainWindow.init popupTimeout autoOpenUrl).dialogsOwnedOnce :=
  ⟨List.nodup_nil, List.nodup_nil, fun d hd => absurd hd (List.not_mem_nil d),
    fun d hd => absurd hd (by rintro (hd | hd) <;> exact List.not_mem_nil d hd),
    fun _ => Nat.zero_le 1⟩

theorem init_timersOwnedOnce (popupTimeout : Int) (autoOpenUrl : Bool) :
    (MainWindow.init popupTimeout autoOpenUrl).timersOwnedOnce :=
  ⟨List.nodup_nil, fun t ht => absurd ht (List.not_mem_nil t), fun _ => Nat.zero_le 1⟩

/-- C15: along every sequence of events from the freshly constructed window in
which every "created" names an identifier that is a key of none of the three
hashes, every `dialogAttached(true)` comes from a dialog held by
`m_informerDialogsHash`, every `dialogAttached(false)` from a dialog held by
`m_attachedDialogsHash` and every expiry from a timer held by `m_timersHash`,
`deleteLater()` has been called at most once on every dialog and at most once
on every timer. -/
theorem no_dialog_or_timer_released_twice (popupTimeout : Int) (autoOpenUrl : Bool)
    (es : List Event) (hdisc : disciplinedTrace (MainWindow.init popupTimeout autoOpenUrl) es) :
    (∀ p, ((run (MainWindow.init popupTimeout autoOpenUrl) es).dialogHeap p).deleteLaterCalls
      ≤ 1) ∧
    (∀ q, ((run (MainWindow.init popupTimeout autoOpenUrl) es).timerHeap q).deleteLaterCalls
      ≤ 1) :=
  have h := run_preserves_ownedOnce es _ hdisc (init_dialogsOwnedOnce popupTimeout autoOpenUrl)
    (init_timersOwnedOnce popupTimeout autoOpenUrl)
  ⟨h.1.2.2.2.2, h.2.2.2⟩

/-- Witness of C15: call "A" times out and is destroyed afterwards, call "B" is
pinned, unpinned and destroyed, call "C" is pinned, and everything is closed
twice.  Dialog 1 and timer 2 have then been released at most once. -/
theorem no_dialog_or_timer_released_twice_witness :
    disciplinedTrace (MainWindow.init 5 false)
      [.channelCreated "A" ⟨"Alice", "http://a"⟩, .channelCreated "B" ⟨"Bob", "http://b"⟩,
       .timerTimeout 1, .channelDestroyed "A", .dialogAttached 2 true, .channelAnswered "B",
       .dialogAttached 2 false, .channelDestroyed "B", .channelCreated "C" ⟨"Carl", "http://c"⟩,
       .dialogAttached 3 true, .closeAllPopups, .timerTimeout 3, .dialogFinished 3,
       .closeAllPopups] ∧
    ((run (MainWindow.init 5 false)
      [.channelCreated "A" ⟨"Alice", "http://a"⟩, .channelCreated "B" ⟨"Bob", "http://b"⟩,
       .timerTimeout 1, .channelDestroyed "A", .dialogAttached 2 true, .channelAnswered "B",
       .dialogAttached 2 false, .channelDestroyed "B", .channelCreated "C" ⟨"Carl", "http://c"⟩,
       .dialogAttached 3 true, .closeAllPopups, .timerTimeout 3, .dialogFinished 3,
       .closeAllPopups]).dialogHeap 1).deleteLaterCalls ≤ 1 ∧
    ((run (MainWindow.init 5 false)
      [.channelCreated "A" ⟨"Alice", "http://a"⟩, .channelCreated "B" ⟨"Bob", "http://b"⟩,
       .timerTimeout 1, .channelDestroyed "A", .dialogAttached 2 true, .channelAnswered "B",
       .dialogAttached 2 false, .channelDestroyed "B", .channelCreated "C" ⟨"Carl", "http://c"⟩,
       .dialogAttached 3 true, .closeAllPopups, .timerTimeout 3, .dialogFinished 3,
       .closeAllPopups]).timerHeap 2).deleteLaterCalls ≤ 1 :=
  ⟨by decide,
   (no_dialog_or_timer_released_twice 5 false _ (by decide)).1 1,
   (no_dialog_or_timer_released_twice 5 false _ (by decide)).2 2⟩

end KazooPopup
